import Mathlib

/-!
# `native_renderer.cpp`: a shallow embedding and its checked properties

The renderer keeps one `RendererState` record and talks to four outside
systems: OpenGL ES, EGL, the Java runtime (JNI) and OpenCV.  Every entry point
is embedded as a pure function from the state before the call, and from the
answers the outside systems give during the call, to the state after the call
together with the list of outside calls it made, in program order.

Conventions of the embedding:

* `int` fields are integers reduced by `wrapInt32` wherever the source does
  arithmetic on them;
* `GLuint` handles are natural numbers, `0` being the invalid handle;
* pointers that the source only compares with `nullptr` (or with an
  `EGL_NO_*` sentinel) are `Option Nat`, `none` being the null value;
* a `steady_clock::time_point` is its tick count, in nanoseconds, and the
  difference of two readings is reduced by `wrapInt64`.
-/

namespace NativeRenderer

/-! ## Machine integers and clock readings -/

/-- Reduction of an integer to the range of a 32-bit two's-complement `int`.
C++ leaves signed overflow undefined; the 32-bit `int` of the Android targets
wraps, and that is the value taken here. -/
def wrapInt32 (x : Int) : Int :=
  (x + 2147483648) % 4294967296 - 2147483648

/-- Number of clock ticks in one millisecond. -/
def ticksPerMs : Int := 1000000

/-- Reduction of an integer to the range of the 64-bit two's-complement
count of a `steady_clock::duration`; as for `int`, the wrapped value stands
for the overflow that C++ leaves undefined. -/
def wrapInt64 (x : Int) : Int :=
  (x + 9223372036854775808) % 18446744073709551616 - 9223372036854775808

/-- Whole milliseconds in a count of nanosecond ticks, as
`duration_cast<milliseconds>` yields them: truncated toward zero. -/
def wholeMs (ticks : Int) : Int :=
  Int.tdiv ticks ticksPerMs

/-- Value of `duration_cast<milliseconds>(now - last).count()` for two
readings of `std::chrono::steady_clock`, each given as its count of
nanosecond ticks: the difference is formed in the 64-bit tick count and then
cast to whole milliseconds. -/
def elapsedMs (last now : Int) : Int :=
  wholeMs (wrapInt64 (now - last))

/-! ## Images -/

/-- One `CV_8UC4` element, in R, G, B, A order. -/
structure Pixel where
  r : Nat
  g : Nat
  b : Nat
  a : Nat
deriving DecidableEq, Repr

/-- Matrix header of `cv::Mat` with its elements addressed by row and column. -/
structure Mat (α : Type) where
  rows : Nat
  cols : Nat
  px : Nat → Nat → α

/-- Effect of `cv::flip(src, dst, 0)`, the vertical flip the source comments
describe ("Flip vertically"): the rows are reversed. -/
def cvFlip0 {α : Type} (src : Mat α) : Mat α :=
  { rows := src.rows, cols := src.cols, px := fun i j => src.px (src.rows - 1 - i) j }

/-! ## Outside calls -/

/-- Names of the attributes and uniforms the shader sources declare. -/
inductive ShaderVar where
  | aPosition
  | aTexCoord
  | uTexture
  | uRotation
  | uIsFrontCamera
deriving DecidableEq, Repr

/-- Texture targets passed to `glBindTexture`. -/
inductive TexTarget where
  | oes
  | tex2D
deriving DecidableEq, Repr

/-- Location returned by `glGetAttribLocation` or `glGetUniformLocation`,
kept as the query that produced it. -/
structure Loc where
  prog : Nat
  var : ShaderVar
deriving DecidableEq, Repr

/-- The three shader source strings of the file. -/
inductive ShaderSource where
  | vertexShaderSource
  | fragmentShaderSource
  | fragmentShader2DSource
deriving DecidableEq, Repr

/-- Shader stage passed to `glCreateShader`. -/
inductive ShaderType where
  | vertex
  | fragment
deriving DecidableEq, Repr

/-- The calls the renderer makes into OpenGL ES, EGL, JNI, OpenCV and the
native window library.  `uniform1f` carries the integer whose conversion to
`GLfloat` is passed (the literal `0.0f` is the conversion of `0`). -/
inductive Call where
  | clearColor
  | clear
  | bindFramebuffer (fbo : Nat)
  | bindTexture (target : TexTarget) (tex : Nat)
  | texImage2D (width height : Int) (data : Option (Mat Pixel))
  | framebufferTexture2D (tex : Nat)
  | checkFramebufferStatus
  | viewport (width height : Int)
  | useProgram (prog : Nat)
  | getAttribLocation (prog : Nat) (var : ShaderVar)
  | getUniformLocation (prog : Nat) (var : ShaderVar)
  | enableVertexAttribArray (loc : Loc)
  | disableVertexAttribArray (loc : Loc)
  | vertexAttribPointer (loc : Loc) (size offset : Nat)
  | uniform1f (loc : Loc) (value : Int)
  | uniform1i (loc : Loc) (value : Int)
  | activeTexture (unit : Nat)
  | drawArrays
  | readPixels (width height : Int)
  | cvFlip
  | processFrameWithCanny
  | eglSwapBuffers (display surface : Option Nat)
  | getEnv
  | getObjectClass (obj : Nat)
  | getMethodID
  | callVoidMethod (obj : Nat) (fps : Int)
  | attachCurrentThread
  | detachCurrentThread
  | deleteGlobalRef (obj : Nat)
  | newGlobalRef (obj : Nat)
  | deleteFramebuffers (fbo : Nat)
  | deleteTextures (tex : Nat)
  | deleteProgram (prog : Nat)
  | eglDestroySurface (display surface : Option Nat)
  | eglDestroyContext (display context : Option Nat)
  | eglTerminate (display : Option Nat)
  | nativeWindowRelease (window : Nat)
  | genTextures
  | genFramebuffers
  | texParameteri (target : TexTarget)
  | createShader (type : ShaderType)
  | shaderSource (shader : Nat) (src : ShaderSource)
  | compileShader (shader : Nat)
  | getShaderiv (shader : Nat)
  | getShaderInfoLog (shader : Nat)
  | deleteShader (shader : Nat)
  | createProgram
  | attachShader (prog shader : Nat)
  | linkProgram (prog : Nat)
  | getProgramiv (prog : Nat)
  | getProgramInfoLog (prog : Nat)

/-! ## Render state -/

/-- The fields of `struct RendererState` that the entry points read or write.
`config`, `frameMutex`, `currentFrame` and `jvm` are left out: no embedded
entry point branches on them. -/
structure RendererState where
  display : Option Nat
  surface : Option Nat
  context : Option Nat
  program : Nat
  program2D : Nat
  cameraTextureId : Nat
  outputTextureId : Nat
  fbo : Nat
  vertexBuffer : Nat
  width : Int
  height : Int
  cameraWidth : Int
  cameraHeight : Int
  window : Option Nat
  processingMode : Bool
  frameCount : Int
  lastFpsTime : Int
  currentFps : Int
  cameraRotation : Int
  isFrontCamera : Bool
  frameReady : Bool
  fpsCallback : Option Nat
deriving DecidableEq

/-- State built by `nativeInit`.  `new RendererState()` value-initialises the
record, so the fields the function does not assign (`program`,
`cameraTextureId`, `outputTextureId`, `vertexBuffer`) are zero; `now` is the
clock reading taken for `lastFpsTime`. -/
def nativeInit (now : Int) : RendererState :=
  { display := none
    surface := none
    context := none
    program := 0
    program2D := 0
    cameraTextureId := 0
    outputTextureId := 0
    fbo := 0
    vertexBuffer := 0
    width := 0
    height := 0
    cameraWidth := 1280
    cameraHeight := 720
    window := none
    processingMode := true
    frameCount := 0
    lastFpsTime := now
    currentFps := 0
    cameraRotation := 0
    isFrontCamera := false
    frameReady := false
    fpsCallback := none }

/-- Body of `nativeOnSurfaceChanged`: stores the size and sets the viewport. -/
def nativeOnSurfaceChanged (s : RendererState) (width height : Int) :
    RendererState × List Call :=
  ({ s with width := width, height := height }, [Call.viewport width height])

/-- Body of `nativeSetCameraRotation`. -/
def nativeSetCameraRotation (s : RendererState) (rotation : Int) (isFrontCamera : Bool) :
    RendererState :=
  { s with cameraRotation := rotation, isFrontCamera := isFrontCamera }

/-- Body of `nativeSetFpsCallback`.  `newRef` is the reference that
`NewGlobalRef` returns when it is called. -/
def nativeSetFpsCallback (s : RendererState) (callback : Option Nat) (newRef : Option Nat) :
    RendererState × List Call :=
  let t1 : List Call :=
    match s.fpsCallback with
    | some old => [Call.deleteGlobalRef old]
    | none => []
  match callback with
  | some cb => ({ s with fpsCallback := newRef }, t1 ++ [Call.newGlobalRef cb])
  | none => ({ s with fpsCallback := none }, t1)

/-! ## Frame-rate accounting (lines 431-464 of `nativeOnDrawFrame`) -/

/-- Result of `JavaVM::GetEnv`. -/
inductive JniResult where
  | ok
  | detached
  | other
deriving DecidableEq, Repr

/-- Answers of the Java runtime during one notification. -/
structure JniInput where
  getEnv : JniResult
  methodFound : Bool
  attachOk : Bool

/-- The three JNI calls that deliver the value to the observer; the last one
is made only when `GetMethodID` found `onFpsUpdate`. -/
def callOnFpsUpdate (cb : Nat) (fps : Int) (methodFound : Bool) : List Call :=
  [Call.getObjectClass cb, Call.getMethodID] ++
    (if methodFound then [Call.callVoidMethod cb fps] else [])

/-- Lines 441-463: the Java callback. -/
def notifyFps (s : RendererState) (jni : JniInput) : List Call :=
  match s.fpsCallback with
  | none => []
  | some cb =>
    Call.getEnv ::
      (match jni.getEnv with
       | JniResult.ok => callOnFpsUpdate cb s.currentFps jni.methodFound
       | JniResult.detached =>
         Call.attachCurrentThread ::
           (if jni.attachOk then
              callOnFpsUpdate cb s.currentFps jni.methodFound ++ [Call.detachCurrentThread]
            else [])
       | JniResult.other => [])

/-- Lines 431-464: count the frame and, once a second, publish the rate. -/
def updateFps (s : RendererState) (now : Int) (jni : JniInput) :
    RendererState × List Call :=
  let s1 := { s with frameCount := wrapInt32 (s.frameCount + 1) }
  let elapsed := elapsedMs s1.lastFpsTime now
  if 1000 ≤ elapsed then
    let s2 := { s1 with
      currentFps := wrapInt32 (Int.tdiv (wrapInt32 (s1.frameCount * 1000)) elapsed) }
    let s3 := { s2 with frameCount := 0, lastFpsTime := now }
    (s3, notifyFps s3 jni)
  else
    (s1, [])


/-! ## The edge filter -/

/-- The two OpenCV operations of the filter whose arithmetic is outside the
repository, taken as parameters: the luminance that `cv::COLOR_RGBA2GRAY`
assigns to a pixel and the edge operator `cv::Canny` with its two
thresholds. -/
structure CvLib where
  rgba2gray : Pixel → Nat
  canny : Mat Nat → Int → Int → Mat Nat

/-- Modelled from the spec: `cv::Canny` is OpenCV code outside the
repository; the specification has it produce "a single-channel binary edge
map" whose values "are exactly 0 or 255", at the size of its input. -/
def CannyContract (canny : Mat Nat → Int → Int → Mat Nat) : Prop :=
  ∀ (g : Mat Nat) (low high : Int),
    (canny g low high).rows = g.rows ∧ (canny g low high).cols = g.cols ∧
      ∀ i j, i < g.rows → j < g.cols →
        (canny g low high).px i j = 0 ∨ (canny g low high).px i j = 255

/-- Modelled from the spec: `cv::cvtColor` with `cv::COLOR_RGBA2GRAY` is
OpenCV code outside the repository; the specification has it "convert to
single-channel luminance", one value for each pixel, at the same size. -/
def cvtColorRgba2Gray (cv : CvLib) (src : Mat Pixel) : Mat Nat :=
  { rows := src.rows, cols := src.cols, px := fun i j => cv.rgba2gray (src.px i j) }

/-- Modelled from the spec: `cv::cvtColor` with `cv::COLOR_GRAY2RGBA` is
OpenCV code outside the repository; the specification has it "replicate"
the edge map "across RGBA channels (opaque alpha)": the gray value is copied
to R, G and B and alpha is 255. -/
def cvtColorGray2Rgba (src : Mat Nat) : Mat Pixel :=
  { rows := src.rows, cols := src.cols
    px := fun i j => { r := src.px i j, g := src.px i j, b := src.px i j, a := 255 } }

/-- Function `processFrameWithCanny`.  The parameter is a `const cv::Mat&`
and each OpenCV call writes a local of its own (`gray`, `edges`, `result`);
the first component is the caller's matrix after the call, the second the
returned `result`. -/
def processFrameWithCanny (cv : CvLib) (input : Mat Pixel) : Mat Pixel × Mat Pixel :=
  let gray := cvtColorRgba2Gray cv input
  let edges := cv.canny gray 50 150
  let result := cvtColorGray2Rgba edges
  (input, result)

/-! ## Drawing a frame -/

/-- Answers of the outside systems during one `nativeOnDrawFrame` call: the
clock reading, whether `glCheckFramebufferStatus` reports
`GL_FRAMEBUFFER_COMPLETE`, the bytes `glReadPixels` delivers, and the Java
runtime. -/
structure FrameInput where
  now : Int
  fboComplete : Bool
  readback : Nat → Nat → Pixel
  jni : JniInput

/-- Lines 324-378: the body guarded by the framebuffer status check. -/
def fboPass (cv : CvLib) (s : RendererState) (inp : FrameInput) : List Call :=
  let posLoc : Loc := ⟨s.program, ShaderVar.aPosition⟩
  let texLoc : Loc := ⟨s.program, ShaderVar.aTexCoord⟩
  let texUniform : Loc := ⟨s.program, ShaderVar.uTexture⟩
  let rotLoc : Loc := ⟨s.program, ShaderVar.uRotation⟩
  let frontLoc : Loc := ⟨s.program, ShaderVar.uIsFrontCamera⟩
  let frameMat : Mat Pixel :=
    { rows := s.cameraHeight.toNat, cols := s.cameraWidth.toNat, px := inp.readback }
  let flipped := cvFlip0 frameMat
  let processed := (processFrameWithCanny cv flipped).2
  let frameMat2 := cvFlip0 processed
  [ Call.viewport s.cameraWidth s.cameraHeight,
    Call.clearColor,
    Call.clear,
    Call.useProgram s.program,
    Call.getAttribLocation s.program ShaderVar.aPosition,
    Call.getAttribLocation s.program ShaderVar.aTexCoord,
    Call.getUniformLocation s.program ShaderVar.uTexture,
    Call.getUniformLocation s.program ShaderVar.uRotation,
    Call.getUniformLocation s.program ShaderVar.uIsFrontCamera,
    Call.enableVertexAttribArray posLoc,
    Call.enableVertexAttribArray texLoc,
    Call.vertexAttribPointer posLoc 3 0,
    Call.vertexAttribPointer texLoc 2 3,
    Call.uniform1f rotLoc 0,
    Call.uniform1i frontLoc 0,
    Call.activeTexture 0,
    Call.bindTexture TexTarget.oes s.cameraTextureId,
    Call.uniform1i texUniform 0,
    Call.drawArrays,
    Call.disableVertexAttribArray posLoc,
    Call.disableVertexAttribArray texLoc,
    Call.readPixels s.cameraWidth s.cameraHeight,
    Call.cvFlip,
    Call.processFrameWithCanny,
    Call.cvFlip,
    Call.bindTexture TexTarget.tex2D s.outputTextureId,
    Call.texImage2D s.cameraWidth s.cameraHeight (some frameMat2) ]

/-- Lines 310-389 without the two assignments: the block entered when edge
detection is requested and the screen size is known. -/
def filterBlock (cv : CvLib) (s : RendererState) (inp : FrameInput) : List Call :=
  [ Call.bindFramebuffer s.fbo,
    Call.bindTexture TexTarget.tex2D s.outputTextureId,
    Call.texImage2D s.cameraWidth s.cameraHeight none,
    Call.framebufferTexture2D s.outputTextureId,
    Call.checkFramebufferStatus ] ++
  (if inp.fboComplete then fboPass cv s inp else []) ++
  [ Call.bindFramebuffer 0,
    Call.viewport s.width s.height ]

/-- Lines 392-429: the quad drawn to the screen with the chosen texture. -/
def screenPass (s : RendererState) (textureTarget : TexTarget) (textureToRender : Nat) :
    List Call :=
  let currentProgram := if textureTarget = TexTarget.oes then s.program else s.program2D
  let positionLoc : Loc := ⟨currentProgram, ShaderVar.aPosition⟩
  let texCoordLoc : Loc := ⟨currentProgram, ShaderVar.aTexCoord⟩
  let textureLoc : Loc := ⟨currentProgram, ShaderVar.uTexture⟩
  let rotationLoc : Loc := ⟨currentProgram, ShaderVar.uRotation⟩
  let isFrontCameraLoc : Loc := ⟨currentProgram, ShaderVar.uIsFrontCamera⟩
  [ Call.useProgram (if textureTarget = TexTarget.oes then s.program else s.program2D),
    Call.getAttribLocation currentProgram ShaderVar.aPosition,
    Call.getAttribLocation currentProgram ShaderVar.aTexCoord,
    Call.getUniformLocation currentProgram ShaderVar.uTexture,
    Call.getUniformLocation currentProgram ShaderVar.uRotation,
    Call.getUniformLocation currentProgram ShaderVar.uIsFrontCamera,
    Call.enableVertexAttribArray positionLoc,
    Call.enableVertexAttribArray texCoordLoc,
    Call.vertexAttribPointer positionLoc 3 0,
    Call.vertexAttribPointer texCoordLoc 2 3,
    Call.uniform1f rotationLoc s.cameraRotation,
    Call.uniform1i isFrontCameraLoc (if s.isFrontCamera then 1 else 0),
    Call.activeTexture 0,
    Call.bindTexture textureTarget textureToRender,
    Call.uniform1i textureLoc 0,
    Call.drawArrays,
    Call.disableVertexAttribArray positionLoc,
    Call.disableVertexAttribArray texCoordLoc ]

/-- Function `nativeOnDrawFrame`. -/
def nativeOnDrawFrame (cv : CvLib) (s : RendererState) (processEdges : Bool)
    (inp : FrameInput) : RendererState × List Call :=
  if s.cameraTextureId = 0 then
    (s, [])
  else
    let t0 := [Call.clearColor, Call.clear]
    let sel : List Call × Nat × TexTarget :=
      if processEdges = true ∧ 0 < s.width ∧ 0 < s.height then
        (filterBlock cv s inp, s.outputTextureId, TexTarget.tex2D)
      else
        ([], s.cameraTextureId, TexTarget.oes)
    let t2 := screenPass s sel.2.2 sel.2.1
    let r := updateFps s inp.now inp.jni
    (r.1, t0 ++ sel.1 ++ t2 ++ r.2 ++ [Call.eglSwapBuffers s.display s.surface])

/-- One call of a run: the `processEdges` argument and the outside answers. -/
structure Frame where
  processEdges : Bool
  inp : FrameInput

/-- Successive `nativeOnDrawFrame` calls on the same renderer: for each call
its clock reading and the calls it made. -/
def runFrames (cv : CvLib) : RendererState → List Frame → List (Int × List Call)
  | _, [] => []
  | s, f :: fs =>
    (f.inp.now, (nativeOnDrawFrame cv s f.processEdges f.inp).2) ::
      runFrames cv (nativeOnDrawFrame cv s f.processEdges f.inp).1 fs

/-- State after a run of `nativeOnDrawFrame` calls. -/
def stateAfter (cv : CvLib) : RendererState → List Frame → RendererState
  | s, [] => s
  | s, f :: fs => stateAfter cv (nativeOnDrawFrame cv s f.processEdges f.inp).1 fs


/-! ## Shader programs and the surface -/

/-- Answers of OpenGL during one `compileShader` call: the handle from
`glCreateShader`, the `GL_COMPILE_STATUS` and the `GL_INFO_LOG_LENGTH`. -/
structure ShaderInput where
  shader : Nat
  compiled : Bool
  infoLen : Int

/-- Function `compileShader`. -/
def compileShader (type : ShaderType) (source : ShaderSource) (gl : ShaderInput) :
    Nat × List Call :=
  let t := [ Call.createShader type,
             Call.shaderSource gl.shader source,
             Call.compileShader gl.shader,
             Call.getShaderiv gl.shader ]
  if gl.compiled = false then
    (0, t ++ [Call.getShaderiv gl.shader] ++
          (if 1 < gl.infoLen then [Call.getShaderInfoLog gl.shader] else []) ++
          [Call.deleteShader gl.shader])
  else
    (gl.shader, t)

/-- Answers of OpenGL during one `createProgram` call. -/
structure ProgramInput where
  vertex : ShaderInput
  fragment : ShaderInput
  program : Nat
  linked : Bool
  infoLen : Int

/-- Function `createProgram`. -/
def createProgram (vertexSource fragmentSource : ShaderSource) (gl : ProgramInput) :
    Nat × List Call :=
  let v := compileShader ShaderType.vertex vertexSource gl.vertex
  if v.1 = 0 then
    (0, v.2)
  else
    let f := compileShader ShaderType.fragment fragmentSource gl.fragment
    if f.1 = 0 then
      (0, v.2 ++ f.2 ++ [Call.deleteShader v.1])
    else
      if gl.program = 0 then
        (0, v.2 ++ f.2 ++ [Call.createProgram])
      else
        let t := v.2 ++ f.2 ++
          [ Call.createProgram,
            Call.attachShader gl.program v.1,
            Call.attachShader gl.program f.1,
            Call.linkProgram gl.program,
            Call.getProgramiv gl.program ]
        if gl.linked = false then
          (0, t ++ [Call.getProgramiv gl.program] ++
                (if 1 < gl.infoLen then [Call.getProgramInfoLog gl.program] else []) ++
                [Call.deleteProgram gl.program])
        else
          (gl.program, t ++ [Call.deleteShader v.1, Call.deleteShader f.1])

/-- Answers of OpenGL during `nativeOnSurfaceCreated`: those of the two
`createProgram` calls and the names from `glGenTextures` and
`glGenFramebuffers`. -/
structure SurfaceInput where
  prog : ProgramInput
  prog2D : ProgramInput
  texture : Nat
  framebuffer : Nat

/-- Function `nativeOnSurfaceCreated`; the `jint` texture id is converted to
`GLuint`. -/
def nativeOnSurfaceCreated (s : RendererState) (textureId : Int) (gl : SurfaceInput) :
    RendererState × List Call :=
  let s1 := { s with cameraTextureId := (textureId % 4294967296).toNat }
  let p := createProgram ShaderSource.vertexShaderSource ShaderSource.fragmentShaderSource gl.prog
  let s2 := { s1 with program := p.1 }
  let p2 := createProgram ShaderSource.vertexShaderSource ShaderSource.fragmentShader2DSource
    gl.prog2D
  let s3 := { s2 with program2D := p2.1 }
  let s4 := { s3 with outputTextureId := gl.texture }
  let s5 := { s4 with fbo := gl.framebuffer }
  (s5, p.2 ++ p2.2 ++
    [ Call.genTextures,
      Call.bindTexture TexTarget.tex2D s4.outputTextureId,
      Call.texParameteri TexTarget.tex2D,
      Call.texParameteri TexTarget.tex2D,
      Call.texParameteri TexTarget.tex2D,
      Call.texParameteri TexTarget.tex2D,
      Call.genFramebuffers,
      Call.bindTexture TexTarget.oes s5.cameraTextureId,
      Call.texParameteri TexTarget.oes,
      Call.texParameteri TexTarget.oes,
      Call.texParameteri TexTarget.oes,
      Call.texParameteri TexTarget.oes ])

/-! ## Teardown -/

/-- Function `nativeRelease`: the calls made before `delete renderer`; no
state is returned because the record does not outlive the call. -/
def nativeRelease (s : RendererState) : List Call :=
  (match s.fpsCallback with
   | some cb => [Call.deleteGlobalRef cb]
   | none => []) ++
  (if s.fbo ≠ 0 then [Call.deleteFramebuffers s.fbo] else []) ++
  (if s.outputTextureId ≠ 0 then [Call.deleteTextures s.outputTextureId] else []) ++
  (if s.program ≠ 0 then [Call.deleteProgram s.program] else []) ++
  (if s.program2D ≠ 0 then [Call.deleteProgram s.program2D] else []) ++
  (if s.surface ≠ none then [Call.eglDestroySurface s.display s.surface] else []) ++
  (if s.context ≠ none then [Call.eglDestroyContext s.display s.context] else []) ++
  (if s.display ≠ none then [Call.eglTerminate s.display] else []) ++
  (match s.window with
   | some w => [Call.nativeWindowRelease w]
   | none => [])

/-- The owned resources, as the specification names them. -/
inductive Resource where
  | observerRef
  | intermediateTarget
  | outputTexture
  | programOes
  | program2D
  | surface
  | context
  | display
  | nativeWindow
deriving DecidableEq, Repr

/-- The fixed teardown order of the specification. -/
def teardownOrder : List Resource :=
  [ Resource.observerRef, Resource.intermediateTarget, Resource.outputTexture,
    Resource.programOes, Resource.program2D, Resource.surface, Resource.context,
    Resource.display, Resource.nativeWindow ]

/-- Whether a resource was actually created: non-null reference, non-zero
handle, non-sentinel surface, context or display, non-null window. -/
def wasCreated (s : RendererState) : Resource → Bool
  | Resource.observerRef => s.fpsCallback.isSome
  | Resource.intermediateTarget => decide (s.fbo ≠ 0)
  | Resource.outputTexture => decide (s.outputTextureId ≠ 0)
  | Resource.programOes => decide (s.program ≠ 0)
  | Resource.program2D => decide (s.program2D ≠ 0)
  | Resource.surface => s.surface.isSome
  | Resource.context => s.context.isSome
  | Resource.display => s.display.isSome
  | Resource.nativeWindow => s.window.isSome

/-- The destroy operation of a resource of the state. -/
def destroyCall (s : RendererState) : Resource → Call
  | Resource.observerRef => Call.deleteGlobalRef (s.fpsCallback.getD 0)
  | Resource.intermediateTarget => Call.deleteFramebuffers s.fbo
  | Resource.outputTexture => Call.deleteTextures s.outputTextureId
  | Resource.programOes => Call.deleteProgram s.program
  | Resource.program2D => Call.deleteProgram s.program2D
  | Resource.surface => Call.eglDestroySurface s.display s.surface
  | Resource.context => Call.eglDestroyContext s.display s.context
  | Resource.display => Call.eglTerminate s.display
  | Resource.nativeWindow => Call.nativeWindowRelease (s.window.getD 0)

/-! ## Reading a list of calls

The claims speak of what a draw call sees (program in use, bound texture,
uniform values, viewport) and of which kinds of call occur.  `glStep` follows
the OpenGL ES rules for the state-setting calls the renderer uses, and
`draws` records the OpenGL state at each `glDrawArrays`. -/

/-- Value of a uniform: set by `glUniform1f` or by `glUniform1i`. -/
inductive UniformVal where
  | float (v : Int)
  | int (v : Int)
deriving DecidableEq, Repr

/-- The part of the OpenGL context state that the renderer sets. -/
structure GlState where
  framebuffer : Nat
  viewport : Int × Int
  program : Nat
  activeUnit : Nat
  boundTex : Nat → TexTarget → Nat
  uniform : Nat → ShaderVar → Option UniformVal

/-- Effect of one call on the OpenGL context state.  `glUniform*` writes the
uniform of the program in use; `glBindTexture` binds on the active unit. -/
def glStep (g : GlState) : Call → GlState
  | Call.bindFramebuffer fbo => { g with framebuffer := fbo }
  | Call.viewport w h => { g with viewport := (w, h) }
  | Call.useProgram p => { g with program := p }
  | Call.activeTexture u => { g with activeUnit := u }
  | Call.bindTexture t tex =>
    { g with boundTex := fun u t2 => if u = g.activeUnit ∧ t2 = t then tex else g.boundTex u t2 }
  | Call.uniform1f loc v =>
    { g with uniform := fun p x =>
        if p = g.program ∧ x = loc.var then some (UniformVal.float v) else g.uniform p x }
  | Call.uniform1i loc v =>
    { g with uniform := fun p x =>
        if p = g.program ∧ x = loc.var then some (UniformVal.int v) else g.uniform p x }
  | _ => g

/-- The OpenGL state seen by each `glDrawArrays` of a list of calls made from
state `g`, in order. -/
def draws : GlState → List Call → List GlState
  | _, [] => []
  | g, c :: cs =>
    match c with
    | Call.drawArrays => g :: draws g cs
    | _ => draws (glStep g c) cs

/-- Whether a call hands a value to the observer. -/
def Call.isNotify : Call → Bool
  | Call.callVoidMethod _ _ => true
  | _ => false

/-- Whether a call is part of the GPU-CPU round trip: pixel readback, the
filter with its two flips, or a texture upload. -/
def Call.isRoundTrip : Call → Bool
  | Call.readPixels _ _ => true
  | Call.cvFlip => true
  | Call.processFrameWithCanny => true
  | Call.texImage2D _ _ (some _) => true
  | _ => false

/-- Whether a call is `glTexImage2D`, with or without data. -/
def Call.isTexImage : Call → Bool
  | Call.texImage2D _ _ _ => true
  | _ => false

/-- Whether a call is `glBindFramebuffer`. -/
def Call.isFramebufferBind : Call → Bool
  | Call.bindFramebuffer _ => true
  | _ => false

/-- Whether a call is `glDrawArrays`. -/
def Call.isDraw : Call → Bool
  | Call.drawArrays => true
  | _ => false

/-- Clock readings of the calls of a run that notified the observer. -/
def notifyTimes (run : List (Int × List Call)) : List Int :=
  (run.filter (fun p => p.2.any Call.isNotify)).map (fun p => p.1)


/-- Whether a call goes to the Java runtime. -/
def Call.isJni : Call → Bool
  | Call.getEnv => true
  | Call.getObjectClass _ => true
  | Call.getMethodID => true
  | Call.callVoidMethod _ _ => true
  | Call.attachCurrentThread => true
  | Call.detachCurrentThread => true
  | Call.deleteGlobalRef _ => true
  | Call.newGlobalRef _ => true
  | _ => false

/-- OpenGL state after a list of calls. -/
def glRun (g : GlState) (t : List Call) : GlState :=
  t.foldl glStep g

/-- The uniform writes of a list of calls, in order. -/
def uniformWrites : List Call → List (Loc × UniformVal)
  | [] => []
  | Call.uniform1f loc v :: cs => (loc, UniformVal.float v) :: uniformWrites cs
  | Call.uniform1i loc v :: cs => (loc, UniformVal.int v) :: uniformWrites cs
  | _ :: cs => uniformWrites cs

/-! ## Sample inputs -/

/-- A Java runtime that answers every request: the render thread is attached
and `onFpsUpdate` is found. -/
def jniAttached : JniInput :=
  { getEnv := JniResult.ok, methodFound := true, attachOk := true }

/-- Frame answers: clock reading `now`, the given framebuffer status, a
mid-gray readback and an attached Java runtime. -/
def frameInput (now : Int) (fboComplete : Bool) : FrameInput :=
  { now := now, fboComplete := fboComplete
    readback := fun _ _ => { r := 128, g := 128, b := 128, a := 255 }
    jni := jniAttached }

/-- Renderer state with the given frame counter and last report time, all
other fields as `nativeInit` leaves them. -/
def fpsState (frameCount : Int) (lastFpsTime : Int) : RendererState :=
  { nativeInit lastFpsTime with frameCount := frameCount }

/-- A small edge operator with the output format of `cv::Canny`: 255 where
the step to the right neighbour exceeds the high threshold, 0 elsewhere. -/
def stepEdges (g : Mat Nat) (_low high : Int) : Mat Nat :=
  { rows := g.rows, cols := g.cols
    px := fun i j => if high < (g.px i (j + 1) : Int) - (g.px i j : Int) then 255 else 0 }

/-- An instance of the two OpenCV operations: mean of the colour channels as
luminance and `stepEdges` as edge operator. -/
def sampleCv : CvLib :=
  { rgba2gray := fun p => (p.r + p.g + p.b) / 3, canny := stepEdges }

/-- OpenGL answers of a shader that compiles. -/
def shaderOk (shader : Nat) : ShaderInput :=
  { shader := shader, compiled := true, infoLen := 0 }

/-- OpenGL answers of a shader that does not compile. -/
def shaderFailed (shader : Nat) : ShaderInput :=
  { shader := shader, compiled := false, infoLen := 40 }

/-- Surface creation in which both programs build: handles 3 and 4, output
texture 5, framebuffer 6. -/
def surfaceOk : SurfaceInput :=
  { prog := { vertex := shaderOk 1, fragment := shaderOk 2, program := 3, linked := true,
              infoLen := 0 }
    prog2D := { vertex := shaderOk 1, fragment := shaderOk 2, program := 4, linked := true,
                infoLen := 0 }
    texture := 5
    framebuffer := 6 }

/-- Surface creation in which the fragment shader of each program fails to
compile. -/
def surfaceFailed : SurfaceInput :=
  { prog := { vertex := shaderOk 1, fragment := shaderFailed 2, program := 3, linked := true,
              infoLen := 0 }
    prog2D := { vertex := shaderOk 1, fragment := shaderFailed 2, program := 4, linked := true,
                infoLen := 0 }
    texture := 5
    framebuffer := 6 }

/-- Renderer after `nativeInit`, `nativeOnSurfaceCreated` with camera texture
7 and `nativeOnSurfaceChanged` with a 1080 x 1920 screen. -/
def readyState : RendererState :=
  (nativeOnSurfaceChanged (nativeOnSurfaceCreated (nativeInit 0) 7 surfaceOk).1 1080 1920).1

/-- The same sequence of calls when both programs failed to build. -/
def noProgramState : RendererState :=
  (nativeOnSurfaceChanged (nativeOnSurfaceCreated (nativeInit 0) 7 surfaceFailed).1 1080 1920).1

/-- OpenGL context state before the first frame. -/
def glInitial : GlState :=
  { framebuffer := 0, viewport := (0, 0), program := 0, activeUnit := 0
    boundTex := fun _ _ => 0, uniform := fun _ _ => none }

/-- The renderer after surface creation with observer 9 registered; 11 is
the global reference the Java runtime hands out. -/
def observedState : RendererState :=
  (nativeSetFpsCallback readyState (some 9) (some 11)).1

/-- Five unfiltered frames, half a second apart, the first at 0.5 s. -/
def halfSecondFrames : List Frame :=
  [ { processEdges := false, inp := frameInput 500000000 true },
    { processEdges := false, inp := frameInput 1000000000 true },
    { processEdges := false, inp := frameInput 1500000000 true },
    { processEdges := false, inp := frameInput 2000000000 true },
    { processEdges := false, inp := frameInput 2500000000 true } ]

/-- A 2 x 2 image with a dark left column and a bright right column. -/
def stepImage : Mat Pixel :=
  { rows := 2, cols := 2
    px := fun _ j =>
      if j = 0 then { r := 10, g := 10, b := 10, a := 255 }
      else { r := 250, g := 250, b := 250, a := 255 } }

/-! ## Texture storage

`glTexImage2D` specifies anew the storage of the texture bound to
`GL_TEXTURE_2D` on the active texture unit.  `texStep` follows the bindings
and the size each texture has, and `texAllocs` lists the specifications a
list of calls makes, each with the size the texture had before. -/

/-- The texture bindings and sizes that `glTexImage2D` depends on. -/
structure TexStore where
  activeUnit : Nat
  bound2D : Nat → Nat
  size : Nat → Option (Int × Int)

/-- One storage specification: the texture, the requested size, the size the
texture had before the call (`none` if it had no storage), and whether pixel
data came with the call. -/
structure TexAlloc where
  tex : Nat
  width : Int
  height : Int
  previous : Option (Int × Int)
  withData : Bool
deriving DecidableEq, Repr

/-- Effect of one call on the texture bindings and sizes. -/
def texStep (st : TexStore) : Call → TexStore
  | Call.activeTexture u => { st with activeUnit := u }
  | Call.bindTexture TexTarget.tex2D tex =>
    { st with bound2D := fun u => if u = st.activeUnit then tex else st.bound2D u }
  | Call.texImage2D w h _ =>
    { st with size := fun t =>
        if t = st.bound2D st.activeUnit then some (w, h) else st.size t }
  | _ => st

/-- Texture bindings and sizes after a list of calls. -/
def texRun (st : TexStore) (t : List Call) : TexStore :=
  t.foldl texStep st

/-- The storage specifications made by a list of calls from `st`, in order. -/
def texAllocs : TexStore → List Call → List TexAlloc
  | _, [] => []
  | st, c :: cs =>
    (match c with
     | Call.texImage2D w h data =>
       [{ tex := st.bound2D st.activeUnit, width := w, height := h,
          previous := st.size (st.bound2D st.activeUnit), withData := data.isSome }]
     | _ => []) ++ texAllocs (texStep st c) cs

/-- Texture bindings and sizes before the first frame: no texture has
storage. -/
def texInitial : TexStore :=
  { activeUnit := 0, bound2D := fun _ => 0, size := fun _ => none }

/-- A frame with edge detection requested and a complete target, at clock
reading `now`. -/
def filteredFrame (now : Int) : Frame :=
  { processEdges := true, inp := frameInput now true }

/-- Renderer on which an observer was registered and then cleared before any
surface was created: the camera texture id is still 0. -/
def clearedNoSurface : RendererState :=
  (nativeSetFpsCallback (nativeSetFpsCallback (nativeInit 0) (some 9) (some 11)).1
    none none).1

/-- Renderer initialised at clock reading -5000000000000000000, with surface
created (camera texture 7) and an observer registered and then cleared. -/
def clearedEarly : RendererState :=
  (nativeSetFpsCallback
    (nativeSetFpsCallback
      (nativeOnSurfaceChanged
        (nativeOnSurfaceCreated (nativeInit (-5000000000000000000)) 7 surfaceOk).1
        1080 1920).1
      (some 9) (some 11)).1
    none none).1

/-! ## Arithmetic lemmas -/

theorem wrapInt32_eq_self (x : Int) (h1 : -2147483648 ≤ x) (h2 : x ≤ 2147483647) :
    wrapInt32 x = x := by
  unfold wrapInt32
  omega

theorem tdiv_nonneg_le (p e : Int) (hp : 0 ≤ p) (he : 0 ≤ e) :
    0 ≤ Int.tdiv p e ∧ Int.tdiv p e ≤ p := by
  rw [Int.tdiv_eq_ediv hp he]
  exact ⟨Int.ediv_nonneg hp he, Int.ediv_le_self e hp⟩

theorem tdiv_int32_range (p e : Int) (he : 0 ≤ e)
    (h1 : -2147483648 ≤ p) (h2 : p ≤ 2147483647) :
    -2147483648 ≤ Int.tdiv p e ∧ Int.tdiv p e ≤ 2147483647 := by
  by_cases hp : 0 ≤ p
  · have h := tdiv_nonneg_le p e hp he
    omega
  · have hneg : 0 ≤ -p := by omega
    have h := tdiv_nonneg_le (-p) e hneg he
    rw [Int.neg_tdiv] at h
    omega

theorem wholeMs_ge (d : Int) (h : 1000 ≤ wholeMs d) : 1000 * ticksPerMs ≤ d := by
  unfold wholeMs ticksPerMs at *
  by_cases hx : 0 ≤ d
  · rw [Int.tdiv_eq_ediv hx (by decide)] at h
    omega
  · have hneg : 0 ≤ -d := by omega
    have h2 := tdiv_nonneg_le (-d) 1000000 hneg (by decide)
    rw [Int.neg_tdiv] at h2
    omega

theorem wrapInt64_eq_self (x : Int) (h1 : -9223372036854775808 ≤ x)
    (h2 : x ≤ 9223372036854775807) : wrapInt64 x = x := by
  unfold wrapInt64
  omega

theorem wrapInt64_le_self (x : Int) (h : 0 ≤ x) : wrapInt64 x ≤ x := by
  unfold wrapInt64
  omega

theorem elapsedMs_eq_wholeMs (last now : Int) (h1 : -9223372036854775808 ≤ now - last)
    (h2 : now - last ≤ 9223372036854775807) : elapsedMs last now = wholeMs (now - last) := by
  unfold elapsedMs
  rw [wrapInt64_eq_self _ h1 h2]

theorem elapsedMs_ge (last now : Int) (hle : last ≤ now) (h : 1000 ≤ elapsedMs last now) :
    1000 * ticksPerMs ≤ now - last := by
  have h1 := wholeMs_ge _ h
  have h2 := wrapInt64_le_self (now - last) (by omega)
  omega

/-! ## Frame-rate accounting -/

/-- C1, as the code has it: when the difference `now - lastFpsTime` is
representable in the 64-bit tick count of the clock, with `elapsed` its
whole milliseconds: if `elapsed` is at least 1000 the frame-rate step resets
the counter to 0, sets the timestamp to `now`, hands the new state to the
notifier and, when `(c + 1) * 1000` is representable in the 32-bit `int` of
the counter, stores `((c + 1) * 1000) / elapsed` (truncating division) in
`currentFps`; if `elapsed` is below 1000 and `c + 1` is representable, only
the counter changes, to `c + 1`, and no call is made. -/
theorem updateFps_step (s : RendererState) (now : Int) (jni : JniInput)
    (hlo : -9223372036854775808 ≤ now - s.lastFpsTime)
    (hhi : now - s.lastFpsTime ≤ 9223372036854775807) :
    (1000 ≤ wholeMs (now - s.lastFpsTime) →
      (updateFps s now jni).1 =
          { s with
            currentFps := (updateFps s now jni).1.currentFps
            frameCount := 0
            lastFpsTime := now } ∧
        (updateFps s now jni).2 = notifyFps (updateFps s now jni).1 jni ∧
        (-2147483648 ≤ (s.frameCount + 1) * 1000 →
          (s.frameCount + 1) * 1000 ≤ 2147483647 →
          (updateFps s now jni).1.currentFps =
            Int.tdiv ((s.frameCount + 1) * 1000) (wholeMs (now - s.lastFpsTime)))) ∧
    (wholeMs (now - s.lastFpsTime) < 1000 →
      -2147483648 ≤ s.frameCount + 1 → s.frameCount + 1 ≤ 2147483647 →
      updateFps s now jni = ({ s with frameCount := s.frameCount + 1 }, [])) := by
  have hel := elapsedMs_eq_wholeMs s.lastFpsTime now hlo hhi
  constructor
  · intro he
    have he2 : 1000 ≤ elapsedMs s.lastFpsTime now := by rw [hel]; exact he
    refine ⟨?_, ?_, ?_⟩
    · simp only [updateFps, he2, if_true]
    · simp only [updateFps, he2, if_true]
    · intro h1 h2
      have hc : wrapInt32 (s.frameCount + 1) = s.frameCount + 1 :=
        wrapInt32_eq_self _ (by omega) (by omega)
      have hm : wrapInt32 ((s.frameCount + 1) * 1000) = (s.frameCount + 1) * 1000 :=
        wrapInt32_eq_self _ h1 h2
      have hq := tdiv_int32_range ((s.frameCount + 1) * 1000)
        (wholeMs (now - s.lastFpsTime)) (by omega) h1 h2
      have hw := wrapInt32_eq_self _ hq.1 hq.2
      simp only [updateFps, he2, he, if_true, hc, hm, hel, hw]
  · intro he h1 h2
    have hne : ¬ (1000 ≤ elapsedMs s.lastFpsTime now) := by rw [hel]; omega
    have hc : wrapInt32 (s.frameCount + 1) = s.frameCount + 1 :=
      wrapInt32_eq_self _ h1 h2
    simp only [updateFps, hne, if_false, hc]

/-- The three readings named with C1: counter 30 after 1000 ms reports 30,
counter 45 after 1500 ms reports 30, counter 29 after 999 ms reports
nothing. -/
theorem updateFps_step_witness :
    ((updateFps (fpsState 29 0) 1000000000 jniAttached).1.currentFps = 30 ∧
      (updateFps (fpsState 29 0) 1000000000 jniAttached).1.frameCount = 0) ∧
    ((updateFps (fpsState 44 0) 1500000000 jniAttached).1.currentFps = 30 ∧
      (updateFps (fpsState 44 0) 1500000000 jniAttached).1.lastFpsTime = 1500000000) ∧
    updateFps (fpsState 28 0) 999999999 jniAttached =
      ({ fpsState 28 0 with frameCount := 29 }, []) := by
  refine ⟨?_, ?_, ?_⟩
  · have h := (updateFps_step (fpsState 29 0) 1000000000 jniAttached
      (by decide) (by decide)).1 (by decide)
    refine ⟨?_, ?_⟩
    · rw [h.2.2 (by decide) (by decide)]
      decide
    · rw [h.1]
  · have h := (updateFps_step (fpsState 44 0) 1500000000 jniAttached
      (by decide) (by decide)).1 (by decide)
    refine ⟨?_, ?_⟩
    · rw [h.2.2 (by decide) (by decide)]
      decide
    · rw [h.1]
  · exact (updateFps_step (fpsState 28 0) 999999999 jniAttached
      (by decide) (by decide)).2 (by decide) (by decide) (by decide)

/-- C1 as written fails in three places.  With counter 2147483 and 1000 ms
elapsed, `(c + 1) * 1000` leaves the range of `int` and the stored rate is
-2147483, not `2147484000 / 1000 = 2147484`.  With the last report at
-5000000000000000000 ticks and the clock at 5000000000000000000, the true
difference is 10000000000000 ms but the 64-bit difference is negative, and
the step reports nothing.  With counter 2147483647 and 999 ms elapsed,
`c + 1` leaves the range of `int` and the counter becomes -2147483648. -/
theorem updateFps_overflow :
    (wholeMs (1000000000 - (fpsState 2147483 0).lastFpsTime) = 1000 ∧
      (updateFps (fpsState 2147483 0) 1000000000 jniAttached).1.currentFps = -2147483 ∧
      (updateFps (fpsState 2147483 0) 1000000000 jniAttached).1.currentFps ≠
        Int.tdiv (((fpsState 2147483 0).frameCount + 1) * 1000)
          (wholeMs (1000000000 - (fpsState 2147483 0).lastFpsTime))) ∧
    (wholeMs (5000000000000000000 - (fpsState 29 (-5000000000000000000)).lastFpsTime) =
        10000000000000 ∧
      (updateFps (fpsState 29 (-5000000000000000000)) 5000000000000000000 jniAttached).1 =
        { fpsState 29 (-5000000000000000000) with frameCount := 30 } ∧
      (updateFps (fpsState 29 (-5000000000000000000)) 5000000000000000000
        jniAttached).2.length = 0 ∧
      (updateFps (fpsState 29 (-5000000000000000000)) 5000000000000000000
        jniAttached).1.lastFpsTime ≠ 5000000000000000000) ∧
    (wholeMs (999999999 - (fpsState 2147483647 0).lastFpsTime) = 999 ∧
      (updateFps (fpsState 2147483647 0) 999999999 jniAttached).1.frameCount =
        -2147483648 ∧
      (updateFps (fpsState 2147483647 0) 999999999 jniAttached).1.frameCount ≠
        (fpsState 2147483647 0).frameCount + 1) := by
  decide

/-! ## Lemmas on lists of calls -/

theorem draws_append (g : GlState) (a b : List Call) :
    draws g (a ++ b) = draws g a ++ draws (glRun g a) b := by
  induction a generalizing g with
  | nil => rfl
  | cons c cs ih =>
    cases c <;> simp [draws, glRun, glStep, ih]

theorem draws_of_jni (g : GlState) (t : List Call) (h : ∀ c ∈ t, c.isJni = true) :
    draws g t = [] := by
  induction t generalizing g with
  | nil => rfl
  | cons c cs ih =>
    have hc := h c (List.mem_cons_self c cs)
    have hcs : ∀ x ∈ cs, x.isJni = true := fun x hx => h x (List.mem_cons_of_mem c hx)
    cases c <;> simp [Call.isJni] at hc <;> simp [draws, glStep, ih _ hcs]

theorem callOnFpsUpdate_isJni (cb : Nat) (fps : Int) (found : Bool) :
    ∀ c ∈ callOnFpsUpdate cb fps found, c.isJni = true := by
  intro c hc
  cases found <;> simp [callOnFpsUpdate] at hc <;> rcases hc with h | h <;>
    try (subst h; rfl)
  rcases h with h | h <;> subst h <;> rfl

theorem notifyFps_isJni (s : RendererState) (jni : JniInput) :
    ∀ c ∈ notifyFps s jni, c.isJni = true := by
  intro c hc
  unfold notifyFps at hc
  cases hcb : s.fpsCallback with
  | none => simp [hcb] at hc
  | some cb =>
    simp only [hcb, List.mem_cons] at hc
    rcases hc with h | h
    · subst h; rfl
    · cases hres : jni.getEnv with
      | ok =>
        simp only [hres] at h
        exact callOnFpsUpdate_isJni _ _ _ c h
      | detached =>
        simp only [hres, List.mem_cons] at h
        rcases h with h | h
        · subst h; rfl
        · cases hat : jni.attachOk with
          | false => simp [hat] at h
          | true =>
            simp only [hat, if_true, List.mem_append, List.mem_singleton] at h
            rcases h with h | h
            · exact callOnFpsUpdate_isJni _ _ _ c h
            · subst h; rfl
      | other => simp [hres] at h

theorem updateFps_isJni (s : RendererState) (now : Int) (jni : JniInput) :
    ∀ c ∈ (updateFps s now jni).2, c.isJni = true := by
  intro c hc
  unfold updateFps at hc
  by_cases he : 1000 ≤ elapsedMs s.lastFpsTime now
  · simp only [he, if_true] at hc
    exact notifyFps_isJni _ _ c hc
  · simp [he] at hc

theorem isJni_not_gl (c : Call) (h : c.isJni = true) :
    c.isRoundTrip = false ∧ c.isTexImage = false ∧ c.isFramebufferBind = false ∧
      c.isDraw = false := by
  cases c <;> simp [Call.isJni] at h <;>
    simp [Call.isRoundTrip, Call.isTexImage, Call.isDraw, Call.isFramebufferBind]


/-! ## Shape of a frame -/

theorem draws_jni_swap (g : GlState) (a j : List Call) (d sf : Option Nat)
    (h : ∀ c ∈ j, c.isJni = true) :
    draws g (a ++ (j ++ [Call.eglSwapBuffers d sf])) = draws g a := by
  rw [draws_append, draws_append, draws_of_jni _ _ h]
  simp [draws, glStep]

theorem frame_calls_direct (cv : CvLib) (s : RendererState) (processEdges : Bool)
    (inp : FrameInput) (hcam : s.cameraTextureId ≠ 0)
    (hsel : ¬ (processEdges = true ∧ 0 < s.width ∧ 0 < s.height)) :
    (nativeOnDrawFrame cv s processEdges inp).2 =
      ([Call.clearColor, Call.clear] ++ screenPass s TexTarget.oes s.cameraTextureId) ++
        ((updateFps s inp.now inp.jni).2 ++ [Call.eglSwapBuffers s.display s.surface]) := by
  simp only [nativeOnDrawFrame, hcam, hsel, if_false, List.append_nil, List.append_assoc]

theorem frame_calls_filtered (cv : CvLib) (s : RendererState) (processEdges : Bool)
    (inp : FrameInput) (hcam : s.cameraTextureId ≠ 0)
    (hsel : processEdges = true ∧ 0 < s.width ∧ 0 < s.height) :
    (nativeOnDrawFrame cv s processEdges inp).2 =
      ([Call.clearColor, Call.clear] ++ filterBlock cv s inp ++
          screenPass s TexTarget.tex2D s.outputTextureId) ++
        ((updateFps s inp.now inp.jni).2 ++ [Call.eglSwapBuffers s.display s.surface]) := by
  simp only [nativeOnDrawFrame, hcam, hsel, if_false, if_true, and_self, List.append_assoc]

theorem frame_state (cv : CvLib) (s : RendererState) (processEdges : Bool)
    (inp : FrameInput) (hcam : s.cameraTextureId ≠ 0) :
    (nativeOnDrawFrame cv s processEdges inp).1 = (updateFps s inp.now inp.jni).1 := by
  simp only [nativeOnDrawFrame, hcam, if_false]

/-- The draw of a frame that does not enter the filter block. -/
theorem draws_direct (cv : CvLib) (s : RendererState) (processEdges : Bool)
    (inp : FrameInput) (g0 : GlState) (hcam : s.cameraTextureId ≠ 0)
    (hsel : ¬ (processEdges = true ∧ 0 < s.width ∧ 0 < s.height)) :
    ∃ d, draws g0 (nativeOnDrawFrame cv s processEdges inp).2 = [d] ∧
      d.framebuffer = g0.framebuffer ∧
      d.viewport = g0.viewport ∧
      d.program = s.program ∧
      d.activeUnit = 0 ∧
      d.boundTex 0 TexTarget.oes = s.cameraTextureId ∧
      d.uniform s.program ShaderVar.uTexture = some (UniformVal.int 0) ∧
      d.uniform s.program ShaderVar.uRotation = some (UniformVal.float s.cameraRotation) ∧
      d.uniform s.program ShaderVar.uIsFrontCamera =
        some (UniformVal.int (if s.isFrontCamera then 1 else 0)) := by
  rw [frame_calls_direct cv s processEdges inp hcam hsel,
    draws_jni_swap _ _ _ _ _ (updateFps_isJni s inp.now inp.jni)]
  simp [draws, glStep, screenPass]

/-- The two draws of a frame that enters the filter block with a complete
target. -/
theorem draws_filtered_complete (cv : CvLib) (s : RendererState) (processEdges : Bool)
    (inp : FrameInput) (g0 : GlState) (hcam : s.cameraTextureId ≠ 0)
    (hsel : processEdges = true ∧ 0 < s.width ∧ 0 < s.height)
    (hfbo : inp.fboComplete = true) :
    ∃ d1 d2, draws g0 (nativeOnDrawFrame cv s processEdges inp).2 = [d1, d2] ∧
      (d1.framebuffer = s.fbo ∧
        d1.viewport = (s.cameraWidth, s.cameraHeight) ∧
        d1.program = s.program ∧
        d1.activeUnit = 0 ∧
        d1.boundTex 0 TexTarget.oes = s.cameraTextureId ∧
        d1.uniform s.program ShaderVar.uTexture = some (UniformVal.int 0) ∧
        d1.uniform s.program ShaderVar.uRotation = some (UniformVal.float 0) ∧
        d1.uniform s.program ShaderVar.uIsFrontCamera = some (UniformVal.int 0)) ∧
      (d2.framebuffer = 0 ∧
        d2.viewport = (s.width, s.height) ∧
        d2.program = s.program2D ∧
        d2.activeUnit = 0 ∧
        d2.boundTex 0 TexTarget.tex2D = s.outputTextureId ∧
        d2.uniform s.program2D ShaderVar.uTexture = some (UniformVal.int 0) ∧
        d2.uniform s.program2D ShaderVar.uRotation =
          some (UniformVal.float s.cameraRotation) ∧
        d2.uniform s.program2D ShaderVar.uIsFrontCamera =
          some (UniformVal.int (if s.isFrontCamera then 1 else 0))) := by
  rw [frame_calls_filtered cv s processEdges inp hcam hsel,
    draws_jni_swap _ _ _ _ _ (updateFps_isJni s inp.now inp.jni)]
  simp [draws, glStep, screenPass, filterBlock, fboPass, hfbo]
  refine ⟨_, _, ⟨rfl, rfl⟩, ?_⟩
  simp

/-- The single draw of a frame that enters the filter block with an
incomplete target. -/
theorem draws_filtered_incomplete (cv : CvLib) (s : RendererState) (processEdges : Bool)
    (inp : FrameInput) (g0 : GlState) (hcam : s.cameraTextureId ≠ 0)
    (hsel : processEdges = true ∧ 0 < s.width ∧ 0 < s.height)
    (hfbo : inp.fboComplete = false) :
    ∃ d, draws g0 (nativeOnDrawFrame cv s processEdges inp).2 = [d] ∧
      d.framebuffer = 0 ∧
      d.viewport = (s.width, s.height) ∧
      d.program = s.program2D ∧
      d.activeUnit = 0 ∧
      d.boundTex 0 TexTarget.tex2D = s.outputTextureId ∧
      d.uniform s.program2D ShaderVar.uTexture = some (UniformVal.int 0) ∧
      d.uniform s.program2D ShaderVar.uRotation = some (UniformVal.float s.cameraRotation) ∧
      d.uniform s.program2D ShaderVar.uIsFrontCamera =
        some (UniformVal.int (if s.isFrontCamera then 1 else 0)) := by
  rw [frame_calls_filtered cv s processEdges inp hcam hsel,
    draws_jni_swap _ _ _ _ _ (updateFps_isJni s inp.now inp.jni)]
  simp [draws, glStep, screenPass, filterBlock, hfbo]


/-- A frame that does not enter the filter block binds no framebuffer,
specifies no texture image and makes no round trip through the CPU. -/
theorem calls_direct (cv : CvLib) (s : RendererState) (processEdges : Bool)
    (inp : FrameInput) (hcam : s.cameraTextureId ≠ 0)
    (hsel : ¬ (processEdges = true ∧ 0 < s.width ∧ 0 < s.height)) :
    ∀ c ∈ (nativeOnDrawFrame cv s processEdges inp).2,
      c.isRoundTrip = false ∧ c.isTexImage = false ∧ c.isFramebufferBind = false := by
  rw [frame_calls_direct cv s processEdges inp hcam hsel]
  intro c hc
  rcases List.mem_append.1 hc with h | h
  · have hall : ([Call.clearColor, Call.clear] ++
        screenPass s TexTarget.oes s.cameraTextureId).all
          (fun c => !c.isRoundTrip && (!c.isTexImage && !c.isFramebufferBind)) = true := rfl
    simpa using List.all_eq_true.1 hall c h
  · rcases List.mem_append.1 h with h | h
    · have hj := isJni_not_gl c (updateFps_isJni s inp.now inp.jni c h)
      exact ⟨hj.1, hj.2.1, hj.2.2.1⟩
    · rw [List.mem_singleton] at h
      subst h
      simp [Call.isRoundTrip, Call.isTexImage, Call.isFramebufferBind]

/-- A frame that finds its target incomplete makes no round trip through the
CPU: no readback, no flip, no filter call and no upload of pixel data. -/
theorem calls_filtered_incomplete (cv : CvLib) (s : RendererState) (processEdges : Bool)
    (inp : FrameInput) (hcam : s.cameraTextureId ≠ 0)
    (hsel : processEdges = true ∧ 0 < s.width ∧ 0 < s.height)
    (hfbo : inp.fboComplete = false) :
    ∀ c ∈ (nativeOnDrawFrame cv s processEdges inp).2, c.isRoundTrip = false := by
  rw [frame_calls_filtered cv s processEdges inp hcam hsel]
  intro c hc
  rcases List.mem_append.1 hc with h | h
  · have hall : ([Call.clearColor, Call.clear] ++ filterBlock cv s inp ++
        screenPass s TexTarget.tex2D s.outputTextureId).all
          (fun c => !c.isRoundTrip) = true := by
      simp only [filterBlock, hfbo]
      rfl
    simpa using List.all_eq_true.1 hall c h
  · rcases List.mem_append.1 h with h | h
    · exact (isJni_not_gl c (updateFps_isJni s inp.now inp.jni c h)).1
    · rw [List.mem_singleton] at h
      subst h
      simp [Call.isRoundTrip]


/-! ## Texture selection -/

/-- C2: with a non-zero camera texture id and the rotation and mirror flag
last given to `nativeSetCameraRotation`, a frame without edge detection, or
with a screen width or height that is not positive, binds no framebuffer,
specifies no texture image, reads nothing back and calls no filter, and its
single draw uses the external-sampling program with the camera texture bound
as external texture; a frame with edge detection, positive screen size and a
complete target makes its screen draw (the second and last one, on
framebuffer 0) with the 2D-sampling program and the output texture bound as
2D texture.  In both cases the screen draw sees the given rotation and mirror
flag. -/
theorem onDrawFrame_texture_selection (cv : CvLib) (s0 : RendererState) (rotation : Int)
    (mirror processEdges : Bool) (inp : FrameInput) (g0 : GlState)
    (hcam : s0.cameraTextureId ≠ 0) :
    (¬ (processEdges = true ∧ 0 < s0.width ∧ 0 < s0.height) →
      (∀ c ∈ (nativeOnDrawFrame cv (nativeSetCameraRotation s0 rotation mirror)
            processEdges inp).2,
          c.isRoundTrip = false ∧ c.isTexImage = false ∧ c.isFramebufferBind = false) ∧
      ∃ d, draws g0 (nativeOnDrawFrame cv (nativeSetCameraRotation s0 rotation mirror)
            processEdges inp).2 = [d] ∧
        d.program = s0.program ∧
        d.boundTex d.activeUnit TexTarget.oes = s0.cameraTextureId ∧
        d.uniform s0.program ShaderVar.uTexture = some (UniformVal.int d.activeUnit) ∧
        d.uniform s0.program ShaderVar.uRotation = some (UniformVal.float rotation) ∧
        d.uniform s0.program ShaderVar.uIsFrontCamera =
          some (UniformVal.int (if mirror then 1 else 0))) ∧
    (processEdges = true ∧ 0 < s0.width ∧ 0 < s0.height ∧ inp.fboComplete = true →
      ∃ d1 d2, draws g0 (nativeOnDrawFrame cv (nativeSetCameraRotation s0 rotation mirror)
            processEdges inp).2 = [d1, d2] ∧
        d2.framebuffer = 0 ∧
        d2.program = s0.program2D ∧
        d2.boundTex d2.activeUnit TexTarget.tex2D = s0.outputTextureId ∧
        d2.uniform s0.program2D ShaderVar.uTexture = some (UniformVal.int d2.activeUnit) ∧
        d2.uniform s0.program2D ShaderVar.uRotation = some (UniformVal.float rotation) ∧
        d2.uniform s0.program2D ShaderVar.uIsFrontCamera =
          some (UniformVal.int (if mirror then 1 else 0))) := by
  have hcam2 : (nativeSetCameraRotation s0 rotation mirror).cameraTextureId ≠ 0 := hcam
  constructor
  · intro hsel
    refine ⟨calls_direct cv _ processEdges inp hcam2 hsel, ?_⟩
    obtain ⟨d, hd, -, -, hp, hu, ht, hs, hr, hf⟩ :=
      draws_direct cv (nativeSetCameraRotation s0 rotation mirror) processEdges inp g0
        hcam2 hsel
    refine ⟨d, hd, hp, ?_, ?_, hr, hf⟩
    · rw [hu]; exact ht
    · rw [hu]; exact hs
  · intro hsel
    obtain ⟨d1, d2, hd, -, hfb, -, hp, hu, ht, hs, hr, hf⟩ :=
      draws_filtered_complete cv (nativeSetCameraRotation s0 rotation mirror) processEdges
        inp g0 hcam2 ⟨hsel.1, hsel.2.1, hsel.2.2.1⟩ hsel.2.2.2
    refine ⟨d1, d2, hd, hfb, hp, ?_, ?_, hr, hf⟩
    · rw [hu]; exact ht
    · rw [hu]; exact hs


/-- C2 on the renderer after surface creation (programs 3 and 4, camera
texture 7, output texture 5), rotation 90 and mirror set: without edge
detection the one draw uses program 3 and camera texture 7; with edge
detection and a complete target the screen draw uses program 4 and output
texture 5; both see rotation 90 and mirror 1. -/
theorem onDrawFrame_texture_selection_witness :
    readyState.cameraTextureId ≠ 0 ∧
    (∃ d, draws glInitial (nativeOnDrawFrame sampleCv
          (nativeSetCameraRotation readyState 90 true) false (frameInput 5 true)).2 = [d] ∧
      d.program = 3 ∧
      d.boundTex d.activeUnit TexTarget.oes = 7 ∧
      d.uniform 3 ShaderVar.uRotation = some (UniformVal.float 90) ∧
      d.uniform 3 ShaderVar.uIsFrontCamera = some (UniformVal.int 1)) ∧
    (∃ d1 d2, draws glInitial (nativeOnDrawFrame sampleCv
          (nativeSetCameraRotation readyState 90 true) true (frameInput 5 true)).2 = [d1, d2] ∧
      d2.program = 4 ∧
      d2.boundTex d2.activeUnit TexTarget.tex2D = 5 ∧
      d2.uniform 4 ShaderVar.uRotation = some (UniformVal.float 90) ∧
      d2.uniform 4 ShaderVar.uIsFrontCamera = some (UniformVal.int 1)) := by
  refine ⟨by decide, ?_, ?_⟩
  · obtain ⟨d, hd, hp, hb, -, hr, hf⟩ :=
      ((onDrawFrame_texture_selection sampleCv readyState 90 true false (frameInput 5 true)
        glInitial (by decide)).1 (by decide)).2
    exact ⟨d, hd, hp, hb, hr, hf⟩
  · obtain ⟨d1, d2, hd, -, hp, hb, -, hr, hf⟩ :=
      (onDrawFrame_texture_selection sampleCv readyState 90 true true (frameInput 5 true)
        glInitial (by decide)).2 ⟨rfl, by decide, by decide, rfl⟩
    exact ⟨d1, d2, hd, hp, hb, hr, hf⟩

/-! ## Incomplete intermediate target -/

/-- C3 at a frame of the renderer after surface creation, with edge
detection requested, a 1080 x 1920 screen and a target reported incomplete:
the frame makes no readback, flip, filter call or upload, and its only draw
uses the 2D-sampling program (handle 4) with the output texture (5) bound as
2D texture on framebuffer 0, while the same frame without edge detection
draws with the external-sampling program (handle 3) and the camera texture
(7). -/
theorem incomplete_target_draws_output_texture :
    (∀ c ∈ (nativeOnDrawFrame sampleCv readyState true (frameInput 5 false)).2,
      c.isRoundTrip = false) ∧
    (∃ d, draws glInitial
        (nativeOnDrawFrame sampleCv readyState true (frameInput 5 false)).2 = [d] ∧
      d.framebuffer = 0 ∧ d.program = 4 ∧ d.boundTex d.activeUnit TexTarget.tex2D = 5) ∧
    (∃ d, draws glInitial
        (nativeOnDrawFrame sampleCv readyState false (frameInput 5 false)).2 = [d] ∧
      d.framebuffer = 0 ∧ d.program = 3 ∧ d.boundTex d.activeUnit TexTarget.oes = 7) ∧
    readyState.program = 3 ∧ readyState.program2D = 4 ∧
    readyState.cameraTextureId = 7 ∧ readyState.outputTextureId = 5 := by
  refine ⟨?_, ?_, ?_, rfl, rfl, rfl, rfl⟩
  · exact calls_filtered_incomplete sampleCv readyState true (frameInput 5 false)
      (by decide) ⟨rfl, by decide, by decide⟩ rfl
  · obtain ⟨d, hd, hfb, -, hp, hu, ht, -⟩ :=
      draws_filtered_incomplete sampleCv readyState true (frameInput 5 false) glInitial
        (by decide) ⟨rfl, by decide, by decide⟩ rfl
    exact ⟨d, hd, hfb, hp, by rw [hu]; exact ht⟩
  · obtain ⟨d, hd, hfb, -, hp, hu, ht, -⟩ :=
      draws_direct sampleCv readyState false (frameInput 5 false) glInitial
        (by decide) (by decide)
    exact ⟨d, hd, hfb, hp, by rw [hu]; exact ht⟩


/-! ## Program handles -/

theorem compileShader_failed (type : ShaderType) (source : ShaderSource) (gl : ShaderInput)
    (h : gl.compiled = false) : (compileShader type source gl).1 = 0 := by
  simp [compileShader, h]

theorem createProgram_failed (vertexSource fragmentSource : ShaderSource) (gl : ProgramInput)
    (h : gl.vertex.compiled = false ∨ gl.fragment.compiled = false ∨ gl.linked = false) :
    (createProgram vertexSource fragmentSource gl).1 = 0 := by
  unfold createProgram
  by_cases hv : (compileShader ShaderType.vertex vertexSource gl.vertex).1 = 0
  · simp [hv]
  · by_cases hf : (compileShader ShaderType.fragment fragmentSource gl.fragment).1 = 0
    · simp [hv, hf]
    · by_cases hp : gl.program = 0
      · simp [hv, hf, hp]
      · rcases h with h | h | h
        · exact absurd (compileShader_failed _ _ _ h) hv
        · exact absurd (compileShader_failed _ _ _ h) hf
        · simp [hv, hf, hp, h]

/-- C8 as written fails: after a surface creation in which both programs
failed to build, both stored handles are 0, and the next frame still issues
its draw call, with program 0 in use. -/
theorem zero_program_frame_draws :
    (createProgram ShaderSource.vertexShaderSource ShaderSource.fragmentShaderSource
        surfaceFailed.prog).1 = 0 ∧
    noProgramState.program = 0 ∧ noProgramState.program2D = 0 ∧
    ((nativeOnDrawFrame sampleCv noProgramState false (frameInput 5 true)).2.filter
        Call.isDraw).length = 1 ∧
    ∃ d, draws glInitial
        (nativeOnDrawFrame sampleCv noProgramState false (frameInput 5 true)).2 = [d] ∧
      d.program = 0 := by
  refine ⟨by decide, by decide, by decide, by decide, ?_⟩
  obtain ⟨d, hd, -, -, hp, -⟩ :=
    draws_direct sampleCv noProgramState false (frameInput 5 true) glInitial
      (by decide) (by decide)
  exact ⟨d, hd, hp⟩

/-- C8, as the code has it: `createProgram` returns 0 whenever a shader
compile or the link fails, and `nativeOnDrawFrame` never tests a program
handle: when the handle selected for a pass is 0 the pass is issued all the
same and its draw call is made with program 0 in use.  This holds for the
screen pass of a frame that does not enter the filter block, for the screen
pass of a frame that does, and for the intermediate pass. -/
theorem zero_program_not_tested (cv : CvLib) (s : RendererState) (processEdges : Bool)
    (inp : FrameInput) (g0 : GlState) (hcam : s.cameraTextureId ≠ 0) :
    (∀ (vertexSource fragmentSource : ShaderSource) (gl : ProgramInput),
      gl.vertex.compiled = false ∨ gl.fragment.compiled = false ∨ gl.linked = false →
        (createProgram vertexSource fragmentSource gl).1 = 0) ∧
    (¬ (processEdges = true ∧ 0 < s.width ∧ 0 < s.height) → s.program = 0 →
      ∃ d, draws g0 (nativeOnDrawFrame cv s processEdges inp).2 = [d] ∧ d.program = 0) ∧
    (processEdges = true ∧ 0 < s.width ∧ 0 < s.height → s.program2D = 0 →
      ∃ d, (draws g0 (nativeOnDrawFrame cv s processEdges inp).2).getLast? = some d ∧
        d.program = 0) ∧
    (processEdges = true ∧ 0 < s.width ∧ 0 < s.height → inp.fboComplete = true →
      s.program = 0 →
      ∃ d, (draws g0 (nativeOnDrawFrame cv s processEdges inp).2).head? = some d ∧
        d.framebuffer = s.fbo ∧ d.program = 0) := by
  refine ⟨createProgram_failed, ?_, ?_, ?_⟩
  · intro hsel hz
    obtain ⟨d, hd, -, -, hp, -⟩ := draws_direct cv s processEdges inp g0 hcam hsel
    exact ⟨d, hd, hp.trans hz⟩
  · intro hsel hz
    cases hfbo : inp.fboComplete with
    | true =>
      obtain ⟨d1, d2, hd, -, -, -, hp, -⟩ :=
        draws_filtered_complete cv s processEdges inp g0 hcam hsel hfbo
      exact ⟨d2, by rw [hd]; rfl, hp.trans hz⟩
    | false =>
      obtain ⟨d, hd, -, -, hp, -⟩ :=
        draws_filtered_incomplete cv s processEdges inp g0 hcam hsel hfbo
      exact ⟨d, by rw [hd]; rfl, hp.trans hz⟩
  · intro hsel hfbo hz
    obtain ⟨d1, d2, hd, ⟨hfb, -, hp, -⟩, -⟩ :=
      draws_filtered_complete cv s processEdges inp g0 hcam hsel hfbo
    exact ⟨d1, by rw [hd]; rfl, hfb, hp.trans hz⟩

/-- C8, as the code has it, on the renderer whose two programs failed to
build: the intermediate draw and the screen draw of a filtered frame are both
made with program 0. -/
theorem zero_program_not_tested_witness :
    noProgramState.cameraTextureId ≠ 0 ∧
    (∃ d, (draws glInitial (nativeOnDrawFrame sampleCv noProgramState true
          (frameInput 5 true)).2).getLast? = some d ∧ d.program = 0) ∧
    (∃ d, (draws glInitial (nativeOnDrawFrame sampleCv noProgramState true
          (frameInput 5 true)).2).head? = some d ∧ d.framebuffer = 6 ∧ d.program = 0) :=
  ⟨by decide,
    (zero_program_not_tested sampleCv noProgramState true (frameInput 5 true) glInitial
      (by decide)).2.2.1 ⟨rfl, by decide, by decide⟩ (by decide),
    (zero_program_not_tested sampleCv noProgramState true (frameInput 5 true) glInitial
      (by decide)).2.2.2 ⟨rfl, by decide, by decide⟩ rfl (by decide)⟩


/-! ## The intermediate pass -/

theorem uniformWrites_append (a b : List Call) :
    uniformWrites (a ++ b) = uniformWrites a ++ uniformWrites b := by
  induction a with
  | nil => rfl
  | cons c cs ih => cases c <;> simp [uniformWrites, ih]

theorem uniformWrites_of_jni (t : List Call) (h : ∀ c ∈ t, c.isJni = true) :
    uniformWrites t = [] := by
  induction t with
  | nil => rfl
  | cons c cs ih =>
    have hc := h c (List.mem_cons_self c cs)
    have hcs : ∀ x ∈ cs, x.isJni = true := fun x hx => h x (List.mem_cons_of_mem c hx)
    cases c <;> simp [Call.isJni] at hc <;> simp [uniformWrites, ih hcs]

/-- C10: in a frame with edge detection, positive screen size and a complete
target, the intermediate draw is made on the intermediate framebuffer with
the viewport at the camera-frame size, the external-sampling program, the
camera texture bound as external texture, rotation uniform 0 and mirror
uniform 0, whatever rotation and mirror flag are stored; the stored values
are written once, for the 2D-sampling program of the screen draw, as the list
of all uniform writes of the frame shows. -/
theorem intermediate_pass_upright (cv : CvLib) (s : RendererState) (processEdges : Bool)
    (inp : FrameInput) (g0 : GlState) (hcam : s.cameraTextureId ≠ 0)
    (hsel : processEdges = true ∧ 0 < s.width ∧ 0 < s.height)
    (hfbo : inp.fboComplete = true) :
    (∃ d1 d2, draws g0 (nativeOnDrawFrame cv s processEdges inp).2 = [d1, d2] ∧
      d1.framebuffer = s.fbo ∧
      d1.viewport = (s.cameraWidth, s.cameraHeight) ∧
      d1.program = s.program ∧
      d1.boundTex d1.activeUnit TexTarget.oes = s.cameraTextureId ∧
      d1.uniform s.program ShaderVar.uRotation = some (UniformVal.float 0) ∧
      d1.uniform s.program ShaderVar.uIsFrontCamera = some (UniformVal.int 0) ∧
      d2.framebuffer = 0 ∧
      d2.uniform s.program2D ShaderVar.uRotation = some (UniformVal.float s.cameraRotation) ∧
      d2.uniform s.program2D ShaderVar.uIsFrontCamera =
        some (UniformVal.int (if s.isFrontCamera then 1 else 0))) ∧
    uniformWrites (nativeOnDrawFrame cv s processEdges inp).2 =
      [ (⟨s.program, ShaderVar.uRotation⟩, UniformVal.float 0),
        (⟨s.program, ShaderVar.uIsFrontCamera⟩, UniformVal.int 0),
        (⟨s.program, ShaderVar.uTexture⟩, UniformVal.int 0),
        (⟨s.program2D, ShaderVar.uRotation⟩, UniformVal.float s.cameraRotation),
        (⟨s.program2D, ShaderVar.uIsFrontCamera⟩,
          UniformVal.int (if s.isFrontCamera then 1 else 0)),
        (⟨s.program2D, ShaderVar.uTexture⟩, UniformVal.int 0) ] := by
  constructor
  · obtain ⟨d1, d2, hd, ⟨h1, h2, h3, h4, h5, -, h7, h8⟩, h9, -, -, -, -, -, h10, h11⟩ :=
      draws_filtered_complete cv s processEdges inp g0 hcam hsel hfbo
    exact ⟨d1, d2, hd, h1, h2, h3, by rw [h4]; exact h5, h7, h8, h9, h10, h11⟩
  · rw [frame_calls_filtered cv s processEdges inp hcam hsel, uniformWrites_append,
      uniformWrites_append _ [Call.eglSwapBuffers s.display s.surface],
      uniformWrites_of_jni _ (updateFps_isJni s inp.now inp.jni)]
    simp [uniformWrites, screenPass, filterBlock, fboPass, hfbo]

/-- C10 on the renderer after surface creation with rotation 270 and mirror
set: the intermediate draw sees rotation 0 and mirror 0 at the 1280 x 720
camera size, the screen draw sees rotation 270 and mirror 1. -/
theorem intermediate_pass_upright_witness :
    (nativeSetCameraRotation readyState 270 true).cameraTextureId ≠ 0 ∧
    ∃ d1 d2, draws glInitial (nativeOnDrawFrame sampleCv
        (nativeSetCameraRotation readyState 270 true) true (frameInput 5 true)).2 = [d1, d2] ∧
      d1.framebuffer = 6 ∧
      d1.viewport = (1280, 720) ∧
      d1.program = 3 ∧
      d1.uniform 3 ShaderVar.uRotation = some (UniformVal.float 0) ∧
      d1.uniform 3 ShaderVar.uIsFrontCamera = some (UniformVal.int 0) ∧
      d2.uniform 4 ShaderVar.uRotation = some (UniformVal.float 270) ∧
      d2.uniform 4 ShaderVar.uIsFrontCamera = some (UniformVal.int 1) := by
  refine ⟨by decide, ?_⟩
  obtain ⟨d1, d2, hd, h1, h2, h3, -, h5, h6, -, h8, h9⟩ :=
    (intermediate_pass_upright sampleCv (nativeSetCameraRotation readyState 270 true) true
      (frameInput 5 true) glInitial (by decide) ⟨rfl, by decide, by decide⟩ rfl).1
  exact ⟨d1, d2, hd, h1, h2, h3, h5, h6, h8, h9⟩


/-! ## Teardown -/

theorem filter_map_cons {α β : Type} (p : α → Bool) (f : α → β) (a : α) (l : List α) :
    ((a :: l).filter p).map f = (if p a = true then [f a] else []) ++ (l.filter p).map f := by
  cases h : p a <;> simp [List.filter, h]

/-- C9: the destroy calls of `nativeRelease` are those of the fixed order
observer reference, intermediate target, output texture, external-sampling
program, 2D-sampling program, surface, context, display, native window,
restricted to the resources that were created; on the state that
`nativeInit` builds there is none. -/
theorem release_order (s : RendererState) :
    nativeRelease s = (teardownOrder.filter (wasCreated s)).map (destroyCall s) ∧
    ∀ now : Int, nativeRelease (nativeInit now) = [] := by
  constructor
  · simp only [teardownOrder, filter_map_cons, List.filter_nil, List.map_nil,
      List.append_nil, wasCreated, destroyCall, nativeRelease]
    cases s.fpsCallback <;> cases s.surface <;> cases s.context <;> cases s.display <;>
      cases s.window <;> simp
  · intro now
    rfl


/-! ## Notifications -/

theorem callOnFpsUpdate_notify_le (cb : Nat) (fps : Int) (found : Bool) :
    ((callOnFpsUpdate cb fps found).filter Call.isNotify).length ≤ 1 := by
  cases found <;> simp [callOnFpsUpdate, List.filter, Call.isNotify]

theorem notifyFps_notify_le (s : RendererState) (jni : JniInput) :
    ((notifyFps s jni).filter Call.isNotify).length ≤ 1 := by
  unfold notifyFps
  cases s.fpsCallback with
  | none => simp
  | some cb =>
    cases jni.getEnv with
    | ok =>
      simpa [List.filter, Call.isNotify] using callOnFpsUpdate_notify_le cb s.currentFps
        jni.methodFound
    | detached =>
      cases jni.attachOk with
      | false => simp [List.filter, Call.isNotify]
      | true =>
        simpa [List.filter, Call.isNotify] using callOnFpsUpdate_notify_le cb s.currentFps
          jni.methodFound
    | other => simp [List.filter, Call.isNotify]

theorem updateFps_notify_le (s : RendererState) (now : Int) (jni : JniInput) :
    (((updateFps s now jni).2).filter Call.isNotify).length ≤ 1 := by
  unfold updateFps
  by_cases he : 1000 ≤ elapsedMs s.lastFpsTime now
  · simp only [he, if_true]
    exact notifyFps_notify_le _ jni
  · simp [he]

theorem filterBlock_no_notify (cv : CvLib) (s : RendererState) (inp : FrameInput) :
    (filterBlock cv s inp).filter Call.isNotify = [] := by
  cases h : inp.fboComplete <;> simp only [filterBlock, h] <;> rfl

theorem frame_notify_filter (cv : CvLib) (s : RendererState) (processEdges : Bool)
    (inp : FrameInput) :
    (nativeOnDrawFrame cv s processEdges inp).2.filter Call.isNotify =
      if s.cameraTextureId = 0 then []
      else (updateFps s inp.now inp.jni).2.filter Call.isNotify := by
  by_cases hcam : s.cameraTextureId = 0
  · simp [nativeOnDrawFrame, hcam]
  · by_cases hsel : processEdges = true ∧ 0 < s.width ∧ 0 < s.height
    · rw [frame_calls_filtered cv s processEdges inp hcam hsel]
      have h0 : [Call.clearColor, Call.clear].filter Call.isNotify = [] := rfl
      have h2 : (screenPass s TexTarget.tex2D s.outputTextureId).filter Call.isNotify = [] :=
        rfl
      have h3 : [Call.eglSwapBuffers s.display s.surface].filter Call.isNotify = [] := rfl
      simp only [List.filter_append, filterBlock_no_notify, h0, h2, h3, hcam, if_false,
        List.nil_append, List.append_nil]
    · rw [frame_calls_direct cv s processEdges inp hcam hsel]
      have h0 : [Call.clearColor, Call.clear].filter Call.isNotify = [] := rfl
      have h2 : (screenPass s TexTarget.oes s.cameraTextureId).filter Call.isNotify = [] :=
        rfl
      have h3 : [Call.eglSwapBuffers s.display s.surface].filter Call.isNotify = [] := rfl
      simp only [List.filter_append, h0, h2, h3, hcam, if_false, List.nil_append,
        List.append_nil]

theorem any_eq_true_iff_filter_ne_nil (t : List Call) :
    t.any Call.isNotify = true ↔ t.filter Call.isNotify ≠ [] := by
  induction t with
  | nil => simp
  | cons c cs ih =>
    cases hc : c.isNotify <;> simp [List.filter, hc, ih]

/-- A frame that notifies was one with at least 1000 ms elapsed, and it
leaves its own clock reading as the time of the last report. -/
theorem frame_notify_elapsed (cv : CvLib) (s : RendererState) (processEdges : Bool)
    (inp : FrameInput)
    (h : (nativeOnDrawFrame cv s processEdges inp).2.any Call.isNotify = true) :
    1000 ≤ elapsedMs s.lastFpsTime inp.now ∧
      (nativeOnDrawFrame cv s processEdges inp).1.lastFpsTime = inp.now := by
  rw [any_eq_true_iff_filter_ne_nil, frame_notify_filter] at h
  by_cases hcam : s.cameraTextureId = 0
  · simp [hcam] at h
  · simp only [hcam, if_false] at h
    by_cases he : 1000 ≤ elapsedMs s.lastFpsTime inp.now
    · refine ⟨he, ?_⟩
      rw [frame_state cv s processEdges inp hcam]
      simp [updateFps, he]
    · simp [updateFps, he] at h

/-- A frame either keeps the time of the last report or replaces it by its
own clock reading. -/
theorem frame_lastFpsTime (cv : CvLib) (s : RendererState) (processEdges : Bool)
    (inp : FrameInput) :
    (nativeOnDrawFrame cv s processEdges inp).1.lastFpsTime = s.lastFpsTime ∨
      (nativeOnDrawFrame cv s processEdges inp).1.lastFpsTime = inp.now := by
  by_cases hcam : s.cameraTextureId = 0
  · left
    simp [nativeOnDrawFrame, hcam]
  · rw [frame_state cv s processEdges inp hcam]
    by_cases he : 1000 ≤ elapsedMs s.lastFpsTime inp.now
    · right
      simp [updateFps, he]
    · left
      simp [updateFps, he]

theorem notifyTimes_cons (now : Int) (t : List Call) (run : List (Int × List Call)) :
    notifyTimes ((now, t) :: run) =
      (if t.any Call.isNotify = true then [now] else []) ++ notifyTimes run := by
  cases h : t.any Call.isNotify <;> simp [notifyTimes, List.filter, h]

/-- Every notification of a run with non-decreasing clock readings, none of
them before the last report, happens at least 1000 ms after any instant that
precedes the last report. -/
theorem notifyTimes_after (cv : CvLib) (frames : List Frame) :
    ∀ (s : RendererState) (t0 : Int), t0 ≤ s.lastFpsTime →
      (∀ f ∈ frames, s.lastFpsTime ≤ f.inp.now) →
      (frames.map (fun f => f.inp.now)).Pairwise (fun a b => a ≤ b) →
      ∀ b ∈ notifyTimes (runFrames cv s frames), 1000 * ticksPerMs ≤ b - t0 := by
  induction frames with
  | nil => intro s t0 _ _ _ b hb; simp [runFrames, notifyTimes] at hb
  | cons f fs ih =>
    intro s t0 hs hf hmono b hb
    rw [List.map_cons, List.pairwise_cons] at hmono
    have hnow : s.lastFpsTime ≤ f.inp.now := hf f (List.mem_cons_self f fs)
    rw [runFrames, notifyTimes_cons, List.mem_append] at hb
    rcases hb with hb | hb
    · by_cases hn : (nativeOnDrawFrame cv s f.processEdges f.inp).2.any Call.isNotify = true
      · simp only [hn, if_true, List.mem_singleton] at hb
        have he := elapsedMs_ge _ _ hnow
          (frame_notify_elapsed cv s f.processEdges f.inp hn).1
        subst hb
        omega
      · simp [hn] at hb
    · have hs2 : t0 ≤ (nativeOnDrawFrame cv s f.processEdges f.inp).1.lastFpsTime := by
        rcases frame_lastFpsTime cv s f.processEdges f.inp with h | h <;> rw [h] <;> omega
      have hf2 : ∀ g ∈ fs,
          (nativeOnDrawFrame cv s f.processEdges f.inp).1.lastFpsTime ≤ g.inp.now := by
        intro g hg
        rcases frame_lastFpsTime cv s f.processEdges f.inp with h | h <;> rw [h]
        · exact hf g (List.mem_cons_of_mem f hg)
        · exact hmono.1 g.inp.now (List.mem_map_of_mem _ hg)
      exact ih _ t0 hs2 hf2 hmono.2 b hb

theorem wholeMs_of_ticks (d : Int) (h : 1000 * ticksPerMs ≤ d) : 1000 ≤ wholeMs d := by
  unfold wholeMs ticksPerMs at *
  rw [Int.tdiv_eq_ediv (by omega) (by decide)]
  omega

/-- C6: in a run of `nativeOnDrawFrame` calls whose clock readings do not
decrease, each call hands at most one value to the observer, and the clock
readings of any two calls that do so, consecutive ones included, are at
least 1000 ms apart. -/
theorem notify_rate (cv : CvLib) (s : RendererState) (frames : List Frame)
    (hmono : (frames.map (fun f => f.inp.now)).Pairwise (fun a b => a ≤ b)) :
    (∀ p ∈ runFrames cv s frames, (p.2.filter Call.isNotify).length ≤ 1) ∧
    (notifyTimes (runFrames cv s frames)).Pairwise
      (fun a b => 1000 * ticksPerMs ≤ b - a ∧ 1000 ≤ wholeMs (b - a)) := by
  induction frames generalizing s with
  | nil => simp [runFrames, notifyTimes]
  | cons f fs ih =>
    rw [List.map_cons, List.pairwise_cons] at hmono
    obtain ⟨hcount, hpair⟩ := ih (nativeOnDrawFrame cv s f.processEdges f.inp).1 hmono.2
    constructor
    · intro p hp
      rw [runFrames, List.mem_cons] at hp
      rcases hp with hp | hp
      · subst hp
        simp only [frame_notify_filter]
        by_cases hcam : s.cameraTextureId = 0
        · simp [hcam]
        · simp only [hcam, if_false]
          exact updateFps_notify_le s f.inp.now f.inp.jni
      · exact hcount p hp
    · rw [runFrames, notifyTimes_cons]
      by_cases hn : (nativeOnDrawFrame cv s f.processEdges f.inp).2.any Call.isNotify = true
      · simp only [hn, if_true, List.singleton_append, List.pairwise_cons]
        refine ⟨?_, hpair⟩
        intro b hb
        have hlast := (frame_notify_elapsed cv s f.processEdges f.inp hn).2
        have hge := notifyTimes_after cv fs _ f.inp.now (le_of_eq hlast.symm)
          (fun g hg => by rw [hlast]; exact hmono.1 g.inp.now (List.mem_map_of_mem _ hg))
          hmono.2 b hb
        exact ⟨hge, wholeMs_of_ticks _ hge⟩
      · simp only [hn, List.nil_append]
        exact hpair


/-- C6 on five frames half a second apart with an observer registered: the
observer is called at 1.0 s and at 2.0 s only. -/
theorem notify_rate_witness :
    (halfSecondFrames.map (fun f => f.inp.now)).Pairwise (fun a b => a ≤ b) ∧
    notifyTimes (runFrames sampleCv observedState halfSecondFrames) =
      [1000000000, 2000000000] ∧
    (notifyTimes (runFrames sampleCv observedState halfSecondFrames)).Pairwise
      (fun a b => 1000 * ticksPerMs ≤ b - a ∧ 1000 ≤ wholeMs (b - a)) :=
  ⟨by decide, by decide,
    (notify_rate sampleCv observedState halfSecondFrames (by decide)).2⟩


/-! ## Cleared observer -/

theorem updateFps_no_observer (s : RendererState) (now : Int) (jni : JniInput)
    (h : s.fpsCallback = none) : (updateFps s now jni).2 = [] := by
  unfold updateFps
  by_cases he : 1000 ≤ elapsedMs s.lastFpsTime now
  · simp [he, notifyFps, h]
  · simp [he]

theorem updateFps_keeps (s : RendererState) (now : Int) (jni : JniInput) :
    (updateFps s now jni).1.fpsCallback = s.fpsCallback ∧
      (updateFps s now jni).1.cameraTextureId = s.cameraTextureId := by
  unfold updateFps
  by_cases he : 1000 ≤ elapsedMs s.lastFpsTime now <;> simp [he]

theorem frame_keeps (cv : CvLib) (s : RendererState) (processEdges : Bool)
    (inp : FrameInput) :
    (nativeOnDrawFrame cv s processEdges inp).1.fpsCallback = s.fpsCallback ∧
      (nativeOnDrawFrame cv s processEdges inp).1.cameraTextureId = s.cameraTextureId := by
  by_cases hcam : s.cameraTextureId = 0
  · simp [nativeOnDrawFrame, hcam]
  · rw [frame_state cv s processEdges inp hcam]
    exact updateFps_keeps s inp.now inp.jni

theorem stateAfter_keeps (cv : CvLib) (frames : List Frame) :
    ∀ s : RendererState,
      (stateAfter cv s frames).fpsCallback = s.fpsCallback ∧
        (stateAfter cv s frames).cameraTextureId = s.cameraTextureId := by
  induction frames with
  | nil => intro s; exact ⟨rfl, rfl⟩
  | cons f fs ih =>
    intro s
    have h1 := ih (nativeOnDrawFrame cv s f.processEdges f.inp).1
    have h2 := frame_keeps cv s f.processEdges f.inp
    exact ⟨h1.1.trans h2.1, h1.2.trans h2.2⟩

theorem frame_no_jni (cv : CvLib) (s : RendererState) (processEdges : Bool)
    (inp : FrameInput) (h : s.fpsCallback = none) :
    ∀ c ∈ (nativeOnDrawFrame cv s processEdges inp).2,
      c.isNotify = false ∧ c.isJni = false := by
  intro c hc
  by_cases hcam : s.cameraTextureId = 0
  · simp [nativeOnDrawFrame, hcam] at hc
  · by_cases hsel : processEdges = true ∧ 0 < s.width ∧ 0 < s.height
    · rw [frame_calls_filtered cv s processEdges inp hcam hsel,
        updateFps_no_observer s inp.now inp.jni h] at hc
      have hall : (([Call.clearColor, Call.clear] ++ filterBlock cv s inp ++
          screenPass s TexTarget.tex2D s.outputTextureId) ++
            ([] ++ [Call.eglSwapBuffers s.display s.surface])).all
              (fun c => !c.isNotify && !c.isJni) = true := by
        cases hf : inp.fboComplete <;> simp only [filterBlock, hf] <;> rfl
      simpa using List.all_eq_true.1 hall c hc
    · rw [frame_calls_direct cv s processEdges inp hcam hsel,
        updateFps_no_observer s inp.now inp.jni h] at hc
      have hall : (([Call.clearColor, Call.clear] ++
          screenPass s TexTarget.oes s.cameraTextureId) ++
            ([] ++ [Call.eglSwapBuffers s.display s.surface])).all
              (fun c => !c.isNotify && !c.isJni) = true := rfl
      simpa using List.all_eq_true.1 hall c hc

/-- C7 as written fails in two places.  On a renderer whose observer was
cleared before any surface was created, the camera texture id is 0 and a call
2000 ms after the last report returns at once: no call is made and the
timestamp is not set to the clock reading.  On a renderer with a surface,
last report at -5000000000000000000 ticks and clock at 5000000000000000000,
the true difference is 10000000000000 ms but the 64-bit difference is
negative: the frame only counts, and the timestamp is not set either. -/
theorem cleared_observer_no_transition :
    (clearedNoSurface.fpsCallback = none ∧
      clearedNoSurface.cameraTextureId = 0 ∧
      wholeMs (2000000000 - clearedNoSurface.lastFpsTime) = 2000 ∧
      (nativeOnDrawFrame sampleCv clearedNoSurface false (frameInput 2000000000 true)).1 =
        clearedNoSurface ∧
      (nativeOnDrawFrame sampleCv clearedNoSurface false
        (frameInput 2000000000 true)).2.length = 0 ∧
      (nativeOnDrawFrame sampleCv clearedNoSurface false
        (frameInput 2000000000 true)).1.lastFpsTime ≠ 2000000000) ∧
    (clearedEarly.fpsCallback = none ∧
      clearedEarly.cameraTextureId = 7 ∧
      wholeMs (5000000000000000000 - clearedEarly.lastFpsTime) = 10000000000000 ∧
      (nativeOnDrawFrame sampleCv clearedEarly false
        (frameInput 5000000000000000000 true)).1 = { clearedEarly with frameCount := 1 } ∧
      (nativeOnDrawFrame sampleCv clearedEarly false
        (frameInput 5000000000000000000 true)).1.lastFpsTime ≠ 5000000000000000000) := by
  decide

/-- C7, as the code has it: `nativeSetFpsCallback` with a null callback
deletes the global reference it held, once, and leaves none registered;
`nativeInit` registers none either.  From a state without observer, after any
number of frames, a call makes no call into the Java runtime.  If the camera
texture id is non-zero, the difference between the clock reading and the last
report is representable in the 64-bit tick count and its whole milliseconds
are at least 1000, the call still stores the recomputed rate, resets the
counter to 0 and sets the timestamp to its clock reading; if the camera
texture id is 0 the call returns at once and changes nothing. -/
theorem cleared_observer (cv : CvLib) (s : RendererState) (newRef : Option Nat)
    (s0 : RendererState) (earlier : List Frame) (processEdges : Bool) (inp : FrameInput)
    (hnone : s0.fpsCallback = none) :
    ((∀ old, s.fpsCallback = some old →
        (nativeSetFpsCallback s none newRef).2 = [Call.deleteGlobalRef old]) ∧
      (s.fpsCallback = none → (nativeSetFpsCallback s none newRef).2 = []) ∧
      (nativeSetFpsCallback s none newRef).1 = { s with fpsCallback := none }) ∧
    (∀ now : Int, (nativeInit now).fpsCallback = none) ∧
    (stateAfter cv s0 earlier).fpsCallback = none ∧
    (∀ c ∈ (nativeOnDrawFrame cv (stateAfter cv s0 earlier) processEdges inp).2,
      c.isNotify = false ∧ c.isJni = false) ∧
    (s0.cameraTextureId ≠ 0 →
      -9223372036854775808 ≤ inp.now - (stateAfter cv s0 earlier).lastFpsTime →
      inp.now - (stateAfter cv s0 earlier).lastFpsTime ≤ 9223372036854775807 →
      1000 ≤ wholeMs (inp.now - (stateAfter cv s0 earlier).lastFpsTime) →
      (nativeOnDrawFrame cv (stateAfter cv s0 earlier) processEdges inp).1 =
        { stateAfter cv s0 earlier with
          currentFps := wrapInt32 (Int.tdiv
            (wrapInt32 (wrapInt32 ((stateAfter cv s0 earlier).frameCount + 1) * 1000))
            (wholeMs (inp.now - (stateAfter cv s0 earlier).lastFpsTime)))
          frameCount := 0
          lastFpsTime := inp.now }) ∧
    (s0.cameraTextureId = 0 →
      (nativeOnDrawFrame cv (stateAfter cv s0 earlier) processEdges inp).1 =
          stateAfter cv s0 earlier ∧
        (nativeOnDrawFrame cv (stateAfter cv s0 earlier) processEdges inp).2 = []) := by
  have hk := stateAfter_keeps cv earlier s0
  have hnone2 : (stateAfter cv s0 earlier).fpsCallback = none := hk.1.trans hnone
  refine ⟨⟨?_, ?_, ?_⟩, fun _ => rfl, hnone2, frame_no_jni cv _ processEdges inp hnone2,
    ?_, ?_⟩
  · intro old hold
    simp [nativeSetFpsCallback, hold]
  · intro hn
    simp [nativeSetFpsCallback, hn]
  · simp [nativeSetFpsCallback]
  · intro hcam hlo hhi he
    have hcam2 : (stateAfter cv s0 earlier).cameraTextureId ≠ 0 := by rw [hk.2]; exact hcam
    have hel := elapsedMs_eq_wholeMs _ _ hlo hhi
    have he2 : 1000 ≤ elapsedMs (stateAfter cv s0 earlier).lastFpsTime inp.now := by
      rw [hel]; exact he
    rw [frame_state cv _ processEdges inp hcam2]
    simp only [updateFps, he2, he, if_true, hel]
  · intro hcam
    have hcam2 : (stateAfter cv s0 earlier).cameraTextureId = 0 := by rw [hk.2]; exact hcam
    simp [nativeOnDrawFrame, hcam2]

/-- C7, as the code has it, on the renderer with observer reference 11:
clearing deletes reference 11 once; one frame later, the frame at 1.0 s makes
no call into the Java runtime and stores rate 2, counter 0 and its clock
reading. -/
theorem cleared_observer_witness :
    (nativeSetFpsCallback observedState none none).1.fpsCallback = none ∧
    (nativeSetFpsCallback observedState none none).1.cameraTextureId ≠ 0 ∧
    (nativeSetFpsCallback observedState none none).2 = [Call.deleteGlobalRef 11] ∧
    (∀ c ∈ (nativeOnDrawFrame sampleCv
        (stateAfter sampleCv (nativeSetFpsCallback observedState none none).1
          (halfSecondFrames.take 1)) false (frameInput 1000000000 true)).2,
      c.isNotify = false ∧ c.isJni = false) ∧
    ((nativeOnDrawFrame sampleCv
        (stateAfter sampleCv (nativeSetFpsCallback observedState none none).1
          (halfSecondFrames.take 1)) false (frameInput 1000000000 true)).1.currentFps = 2 ∧
      (nativeOnDrawFrame sampleCv
        (stateAfter sampleCv (nativeSetFpsCallback observedState none none).1
          (halfSecondFrames.take 1)) false (frameInput 1000000000 true)).1.frameCount = 0 ∧
      (nativeOnDrawFrame sampleCv
        (stateAfter sampleCv (nativeSetFpsCallback observedState none none).1
          (halfSecondFrames.take 1)) false
            (frameInput 1000000000 true)).1.lastFpsTime = 1000000000) := by
  have h := cleared_observer sampleCv observedState none
    (nativeSetFpsCallback observedState none none).1 (halfSecondFrames.take 1) false
    (frameInput 1000000000 true) (by decide)
  refine ⟨by decide, by decide, h.1.1 11 (by decide), h.2.2.2.1, ?_⟩
  rw [h.2.2.2.2.1 (by decide) (by decide) (by decide) (by decide)]
  exact ⟨by decide, rfl, rfl⟩

/-! ## The edge filter -/

theorem stepEdges_contract : CannyContract stepEdges := by
  intro g low high
  refine ⟨rfl, rfl, ?_⟩
  intro i j _ _
  by_cases h : high < (g.px i (j + 1) : Int) - (g.px i j : Int)
  · right; simp [stepEdges, h]
  · left; simp [stepEdges, h]

/-- C4: whenever the edge operator keeps the output contract of `cv::Canny`
(an edge map of the input size with elements 0 or 255), `processFrameWithCanny`
returns, for every RGBA input, an image with the rows and columns of the
input in which every pixel has R = G = B, that value being 0 or 255, and
alpha 255; the caller's matrix is the same after the call. -/
theorem processFrameWithCanny_shape (cv : CvLib) (input : Mat Pixel)
    (hcanny : CannyContract cv.canny) :
    (processFrameWithCanny cv input).1 = input ∧
    (processFrameWithCanny cv input).2.rows = input.rows ∧
    (processFrameWithCanny cv input).2.cols = input.cols ∧
    ∀ i j, i < input.rows → j < input.cols →
      ((processFrameWithCanny cv input).2.px i j).r =
          ((processFrameWithCanny cv input).2.px i j).g ∧
        ((processFrameWithCanny cv input).2.px i j).g =
          ((processFrameWithCanny cv input).2.px i j).b ∧
        (((processFrameWithCanny cv input).2.px i j).r = 0 ∨
          ((processFrameWithCanny cv input).2.px i j).r = 255) ∧
        ((processFrameWithCanny cv input).2.px i j).a = 255 := by
  obtain ⟨hr, hc, hv⟩ := hcanny (cvtColorRgba2Gray cv input) 50 150
  refine ⟨rfl, ?_, ?_, ?_⟩
  · simpa [processFrameWithCanny, cvtColorGray2Rgba, cvtColorRgba2Gray] using hr
  · simpa [processFrameWithCanny, cvtColorGray2Rgba, cvtColorRgba2Gray] using hc
  · intro i j hi hj
    have h := hv i j (by simpa [cvtColorRgba2Gray] using hi)
      (by simpa [cvtColorRgba2Gray] using hj)
    exact ⟨rfl, rfl, h, rfl⟩

/-- C4 on a 2 x 2 image with one vertical step: the result is 2 x 2, white
and opaque at the step, black and opaque elsewhere. -/
theorem processFrameWithCanny_shape_witness :
    CannyContract sampleCv.canny ∧
    (processFrameWithCanny sampleCv stepImage).2.rows = 2 ∧
    (processFrameWithCanny sampleCv stepImage).2.cols = 2 ∧
    (processFrameWithCanny sampleCv stepImage).2.px 0 0 =
      { r := 255, g := 255, b := 255, a := 255 } ∧
    (processFrameWithCanny sampleCv stepImage).2.px 0 1 =
      { r := 0, g := 0, b := 0, a := 255 } ∧
    (((processFrameWithCanny sampleCv stepImage).2.px 1 0).r = 0 ∨
      ((processFrameWithCanny sampleCv stepImage).2.px 1 0).r = 255) :=
  ⟨stepEdges_contract,
    (processFrameWithCanny_shape sampleCv stepImage stepEdges_contract).2.1,
    (processFrameWithCanny_shape sampleCv stepImage stepEdges_contract).2.2.1,
    by decide, by decide,
    ((processFrameWithCanny_shape sampleCv stepImage stepEdges_contract).2.2.2 1 0
      (by decide) (by decide)).2.2.1⟩

/-! ## Output-texture storage -/

theorem texAllocs_append (st : TexStore) (a b : List Call) :
    texAllocs st (a ++ b) = texAllocs st a ++ texAllocs (texRun st a) b := by
  induction a generalizing st with
  | nil => rfl
  | cons c cs ih => simp [texAllocs, texRun, ih, List.append_assoc]

theorem texRun_append (st : TexStore) (a b : List Call) :
    texRun st (a ++ b) = texRun (texRun st a) b := by
  simp [texRun, List.foldl_append]

theorem texStep_of_jni (st : TexStore) (c : Call) (h : c.isJni = true) :
    texStep st c = st := by
  cases c <;> simp [Call.isJni] at h <;> rfl

theorem texRun_of_jni (st : TexStore) (t : List Call) (h : ∀ c ∈ t, c.isJni = true) :
    texRun st t = st := by
  induction t generalizing st with
  | nil => rfl
  | cons c cs ih =>
    have hc := h c (List.mem_cons_self c cs)
    have hcs : ∀ x ∈ cs, x.isJni = true := fun x hx => h x (List.mem_cons_of_mem c hx)
    have hrun : texRun st (c :: cs) = texRun (texStep st c) cs := rfl
    rw [hrun, texStep_of_jni st c hc]
    exact ih st hcs

theorem texAllocs_of_jni (st : TexStore) (t : List Call) (h : ∀ c ∈ t, c.isJni = true) :
    texAllocs st t = [] := by
  induction t generalizing st with
  | nil => rfl
  | cons c cs ih =>
    have hc := h c (List.mem_cons_self c cs)
    have hcs : ∀ x ∈ cs, x.isJni = true := fun x hx => h x (List.mem_cons_of_mem c hx)
    cases c <;> simp [Call.isJni] at hc <;> simp [texAllocs, texStep, ih _ hcs]

theorem texAllocs_jni_swap (st : TexStore) (a j : List Call) (d sf : Option Nat)
    (h : ∀ c ∈ j, c.isJni = true) :
    texAllocs st (a ++ (j ++ [Call.eglSwapBuffers d sf])) = texAllocs st a := by
  rw [texAllocs_append, texAllocs_append, texAllocs_of_jni _ _ h]
  simp [texAllocs]

theorem texRun_jni_swap (st : TexStore) (a j : List Call) (d sf : Option Nat)
    (h : ∀ c ∈ j, c.isJni = true) :
    texRun st (a ++ (j ++ [Call.eglSwapBuffers d sf])) = texRun st a := by
  rw [texRun_append, texRun_append, texRun_of_jni _ _ h]
  rfl

/-- C11 as written fails: of two consecutive filtered frames on the renderer
after surface creation, both at the camera size 1280 x 720, the second finds
the output texture (5) already at 1280 x 720 and still specifies its storage
anew, twice. -/
theorem second_filtered_frame_reallocates :
    (stateAfter sampleCv readyState [filteredFrame 5]).cameraWidth = 1280 ∧
    (stateAfter sampleCv readyState [filteredFrame 5]).cameraHeight = 720 ∧
    (texRun texInitial
        (nativeOnDrawFrame sampleCv readyState true (frameInput 5 true)).2).size 5 =
      some (1280, 720) ∧
    texAllocs
        (texRun texInitial (nativeOnDrawFrame sampleCv readyState true (frameInput 5 true)).2)
        (nativeOnDrawFrame sampleCv (stateAfter sampleCv readyState [filteredFrame 5]) true
          (frameInput 6 true)).2 =
      [ { tex := 5, width := 1280, height := 720, previous := some (1280, 720),
          withData := false },
        { tex := 5, width := 1280, height := 720, previous := some (1280, 720),
          withData := true } ] := by
  decide

/-- C11, as the code has it: a frame that enters the filter block specifies
the storage of the output texture anew at the camera size whatever size the
texture has, once without data before the status check and, if the target is
complete, once more with the filtered pixels, and leaves the texture at the
camera size; a frame that does not enter the filter block specifies no
texture storage. -/
theorem output_texture_respecified (cv : CvLib) (s : RendererState) (processEdges : Bool)
    (inp : FrameInput) (st : TexStore) (hcam : s.cameraTextureId ≠ 0) :
    (processEdges = true ∧ 0 < s.width ∧ 0 < s.height →
      texAllocs st (nativeOnDrawFrame cv s processEdges inp).2 =
          { tex := s.outputTextureId, width := s.cameraWidth, height := s.cameraHeight,
            previous := st.size s.outputTextureId, withData := false } ::
          (if inp.fboComplete = true then
            [{ tex := s.outputTextureId, width := s.cameraWidth, height := s.cameraHeight,
               previous := some (s.cameraWidth, s.cameraHeight), withData := true }]
           else []) ∧
        (texRun st (nativeOnDrawFrame cv s processEdges inp).2).size s.outputTextureId =
          some (s.cameraWidth, s.cameraHeight)) ∧
    (¬ (processEdges = true ∧ 0 < s.width ∧ 0 < s.height) →
      texAllocs st (nativeOnDrawFrame cv s processEdges inp).2 = []) := by
  have hj := updateFps_isJni s inp.now inp.jni
  constructor
  · intro hsel
    rw [frame_calls_filtered cv s processEdges inp hcam hsel, texAllocs_jni_swap _ _ _ _ _ hj,
      texRun_jni_swap _ _ _ _ _ hj]
    cases hf : inp.fboComplete <;>
      simp [texAllocs, texStep, texRun, screenPass, filterBlock, fboPass, hf]
  · intro hsel
    rw [frame_calls_direct cv s processEdges inp hcam hsel, texAllocs_jni_swap _ _ _ _ _ hj]
    simp [texAllocs, texStep, screenPass]

/-- C11, as the code has it, on the second of two filtered frames: the
output texture is at 1280 x 720 before the frame and its storage is specified
anew. -/
theorem output_texture_respecified_witness :
    (stateAfter sampleCv readyState [filteredFrame 5]).cameraTextureId ≠ 0 ∧
    texAllocs
        (texRun texInitial (nativeOnDrawFrame sampleCv readyState true (frameInput 5 true)).2)
        (nativeOnDrawFrame sampleCv (stateAfter sampleCv readyState [filteredFrame 5]) true
          (frameInput 6 true)).2 ≠ [] := by
  refine ⟨by decide, ?_⟩
  rw [((output_texture_respecified sampleCv (stateAfter sampleCv readyState [filteredFrame 5])
    true (frameInput 6 true)
    (texRun texInitial (nativeOnDrawFrame sampleCv readyState true (frameInput 5 true)).2)
    (by decide)).1 ⟨rfl, by decide, by decide⟩).1]
  exact List.cons_ne_nil _ _

end NativeRenderer
